import Mathlib

/-!
A verification development for the PlotWeaver repository
(story_manager.py, world_manager.py, memory_manager.py, advanced_main.py).

Modelling conventions for the shallow embedding:
- Python `str` is `String` (`len` is `String.length`, counting code points, as in Python);
- Python `int` is `Int`, or `Nat` where the source only ever produces
  non-negative values (word counts, chapter numbers, running indices);
- Python dicts are insertion-ordered association lists `List (String × α)`;
  `dict.values()` is the list of second components, `d[k] = v` keeps the
  position of an existing key and appends a fresh one, as CPython does;
- Python list indexing `l[i]` supports negative indices (`i + len` for
  `i < 0`) and raises `IndexError` out of range; it is modelled by `pyIdx`
  returning `Option`;
- a function that can raise an uncaught exception returns `Option`
  (`none` = the exception propagates);
- `datetime.now()` values are threaded in as explicit parameters.
-/

namespace PlotWeaver

/-- Model of `ChapterStatus` enum from story_manager.py. -/
inductive ChapterStatus where
| planned
| outline
| drafting
| draft
| revision
| completed
deriving DecidableEq, Repr

/-- Model of `ChapterStatus.value` (the string payload of each enum member). -/
def ChapterStatus.value : ChapterStatus → String
| .planned => "planned"
| .outline => "outline"
| .drafting => "drafting"
| .draft => "draft"
| .revision => "revision"
| .completed => "completed"

/-- Model of `ChapterStatus(s)`: parse a string into the enum; `none` models the
`ValueError` raised on an unrecognized value. -/
def ChapterStatus.ofString : String → Option ChapterStatus
| "planned" => some .planned
| "outline" => some .outline
| "drafting" => some .drafting
| "draft" => some .draft
| "revision" => some .revision
| "completed" => some .completed
| _ => none

/-- Model of `SettingType` enum from world_manager.py. -/
inductive SettingType where
| geography
| history
| culture
| magic
| technology
| politics
| religion
| economy
deriving DecidableEq, Repr

/-- Model of `SettingType.value`. -/
def SettingType.value : SettingType → String
| .geography => "geography"
| .history => "history"
| .culture => "culture"
| .magic => "magic"
| .technology => "technology"
| .politics => "politics"
| .religion => "religion"
| .economy => "economy"

/-- Model of `SettingType(s)`; `none` models the `ValueError` on an unrecognized
value. -/
def SettingType.ofString : String → Option SettingType
| "geography" => some .geography
| "history" => some .history
| "culture" => some .culture
| "magic" => some .magic
| "technology" => some .technology
| "politics" => some .politics
| "religion" => some .religion
| "economy" => some .economy
| _ => none

/-- Model of `Scene` dataclass from story_manager.py. -/
structure Scene where
  id : String
  name : String
  description : String
  location : String
  characters : List String
  purpose : String
  content : String
  word_count : Nat
  notes : String
  plot_threads : List String
deriving DecidableEq, Repr

/-- Constructing a `Scene` runs `__post_init__`: when `content` is truthy
(non-empty) `word_count` is overwritten with `len(content)`.  The
`plot_threads is None` normalisation is modelled by the caller passing the
`[]` default directly. -/
def mkScene (id name description location : String) (characters : List String)
    (purpose content : String) (word_count : Nat) (notes : String)
    (plot_threads : List String) : Scene :=
  { id, name, description, location, characters, purpose, content,
    word_count := if content = "" then word_count else content.length,
    notes, plot_threads }

/-- Model of `Chapter` dataclass from story_manager.py.  `created_at`/`updated_at`
are ISO strings already filled in by `__post_init__`. -/
structure Chapter where
  id : String
  number : Nat
  title : String
  summary : String
  scenes : List Scene
  status : ChapterStatus
  target_word_count : Nat
  actual_word_count : Nat
  notes : String
  created_at : String
  updated_at : String
deriving DecidableEq, Repr

/-- Model of `sum(scene.word_count for scene in scenes)`. -/
def sceneSum (scenes : List Scene) : Nat := (scenes.map Scene.word_count).sum

/-- Model of `Chapter._update_word_count`. -/
def Chapter.updateWordCount (c : Chapter) : Chapter :=
  { c with actual_word_count := sceneSum c.scenes }

/-- Constructing a `Chapter` runs `__post_init__`: timestamps default to
`now` and `_update_word_count` is invoked. -/
def mkChapter (id : String) (number : Nat) (title summary : String)
    (scenes : List Scene) (status : ChapterStatus) (target_word_count : Nat)
    (notes now : String) : Chapter :=
  { id, number, title, summary, scenes, status, target_word_count,
    actual_word_count := sceneSum scenes, notes,
    created_at := now, updated_at := now }

/-- Model of `Story` dataclass from story_manager.py. -/
structure Story where
  id : String
  title : String
  genre : String
  summary : String
  chapters : List Chapter
  target_word_count : Nat
  current_word_count : Nat
  status : String
  created_at : String
  updated_at : String
deriving DecidableEq, Repr

/-- Model of `sum(chapter.actual_word_count for chapter in chapters)`. -/
def chapterSum (chapters : List Chapter) : Nat :=
  (chapters.map Chapter.actual_word_count).sum

/-- Model of `Story._update_word_count`. -/
def Story.updateWordCount (s : Story) : Story :=
  { s with current_word_count := chapterSum s.chapters }

/-- Constructing a `Story` runs `__post_init__` (timestamps default to
`now`, `_update_word_count` recomputes `current_word_count`). -/
def mkStory (id : String) (title genre summary : String)
    (chapters : List Chapter) (target_word_count : Nat) (status : String)
    (now : String) : Story :=
  { id, title, genre, summary, chapters, target_word_count,
    current_word_count := chapterSum chapters, status,
    created_at := now, updated_at := now }

/-- CPython dict assignment `d[k] = v`: an existing key keeps its position,
a fresh key is appended. -/
def dictSet (m : List (String × α)) (k : String) (v : α) : List (String × α) :=
  if (m.lookup k).isSome then
    m.map (fun p => if p.1 = k then (k, v) else p)
  else
    m ++ [(k, v)]

/-- Model of `d.values()` in insertion order. -/
def dictVals (m : List (String × α)) : List α := m.map (·.2)

/-- Resolve a Python list index (negative indices count from the end). -/
def pyResolve (len : Nat) (i : Int) : Int := if i < 0 then i + len else i

/-- Python `l[i]`; `none` models `IndexError`. -/
def pyIdx (l : List α) (i : Int) : Option α :=
  if h : 0 ≤ pyResolve l.length i ∧ pyResolve l.length i < (l.length : Int) then
    some (l.get ⟨(pyResolve l.length i).toNat, by omega⟩)
  else none

/-- Python `l[i] = a`; `none` models `IndexError`. -/
def pySet (l : List α) (i : Int) (a : α) : Option (List α) :=
  if 0 ≤ pyResolve l.length i ∧ pyResolve l.length i < (l.length : Int) then
    some (l.set (pyResolve l.length i).toNat a)
  else none

/-- In-memory state of `StoryManager` (the JSON file persistence is treated
separately; see the serialization section below). -/
structure StoryManager where
  stories : List (String × Story)
  current_story_id : Option String
deriving DecidableEq, Repr

/-- Model of `f"story_{idx}_{ts}"`, the ID format used by `create_story`. -/
def mkStoryId (idx ts : Nat) : String :=
  "story_" ++ Nat.repr idx ++ "_" ++ Nat.repr ts

/-- Model of `StoryManager.create_story` (`ts` is `int(datetime.now().timestamp())`,
`now` the ISO timestamp that `__post_init__` records). -/
def create_story (m : StoryManager) (title genre summary : String)
    (ts : Nat) (now : String) : String × StoryManager :=
  let story_id := mkStoryId (m.stories.length + 1) ts
  let story := mkStory story_id title genre summary [] 50000 "planning" now
  (story_id,
   { stories := dictSet m.stories story_id story,
     current_story_id := some story_id })

/-- Model of `StoryManager.add_chapter`; `none` models the `ValueError` for an
unknown story. -/
def add_chapter (m : StoryManager) (story_id title summary now : String) :
    Option (String × StoryManager) :=
  match m.stories.lookup story_id with
  | none => none
  | some story =>
    let number := story.chapters.length + 1
    let chapter_id := story_id ++ "_chapter_" ++ Nat.repr number
    let chapter := mkChapter chapter_id number title summary [] .planned 3000 "" now
    let story' := { story with chapters := story.chapters ++ [chapter],
                               updated_at := now }
    some (chapter_id, { m with stories := dictSet m.stories story_id story' })

/-- Model of `StoryManager.add_scene`; `none` models the `ValueError` for an unknown
story / out-of-range chapter, or the `IndexError` from `chapters[-1]` on an
empty chapter list. -/
def add_scene (m : StoryManager) (story_id : String) (chapter_number : Int)
    (name description location : String) (characters : List String)
    (purpose now : String) : Option (String × StoryManager) :=
  match m.stories.lookup story_id with
  | none => none
  | some story =>
    if (story.chapters.length : Int) < chapter_number then none
    else
      match pyIdx story.chapters (chapter_number - 1) with
      | none => none
      | some chapter =>
        let scene_id := chapter.id ++ "_scene_" ++ Nat.repr (chapter.scenes.length + 1)
        let scene := mkScene scene_id name description location characters purpose "" 0 "" []
        let chapter' := { chapter with scenes := chapter.scenes ++ [scene] }
        match pySet story.chapters (chapter_number - 1) chapter' with
        | none => none
        | some chs =>
          let story' := { story with chapters := chs, updated_at := now }
          some (scene_id, { m with stories := dictSet m.stories story_id story' })

/-- Model of `StoryManager.update_scene_content`; `none` models an uncaught
`KeyError`/`IndexError`. -/
def update_scene_content (m : StoryManager) (story_id : String)
    (chapter_number scene_index : Int) (content now : String) :
    Option StoryManager :=
  match m.stories.lookup story_id with
  | none => none
  | some story =>
    match pyIdx story.chapters (chapter_number - 1) with
    | none => none
    | some chapter =>
      match pyIdx chapter.scenes scene_index with
      | none => none
      | some scene =>
        let scene' := { scene with content := content, word_count := content.length }
        match pySet chapter.scenes scene_index scene' with
        | none => none
        | some scs =>
          let chapter' := Chapter.updateWordCount { chapter with scenes := scs }
          match pySet story.chapters (chapter_number - 1) chapter' with
          | none => none
          | some chs =>
            let story' := Story.updateWordCount { story with chapters := chs }
            let story'' := { story' with updated_at := now }
            some { m with stories := dictSet m.stories story_id story'' }

/-- A call against the `StoryManager` mutation API. -/
inductive Op where
| opCreateStory (title genre summary : String) (ts : Nat) (now : String)
| opAddChapter (story_id title summary now : String)
| opAddScene (story_id : String) (chapter_number : Int)
    (name description location : String) (characters : List String)
    (purpose now : String)
| opUpdateSceneContent (story_id : String) (chapter_number scene_index : Int)
    (content now : String)
deriving DecidableEq, Repr

/-- Apply one API call; a call that raises leaves the in-memory state
unchanged (the API layer catches the exception and answers with an error). -/
def applyOp (m : StoryManager) : Op → StoryManager
| .opCreateStory t g s ts now => (create_story m t g s ts now).2
| .opAddChapter sid t s now =>
  match add_chapter m sid t s now with
  | none => m
  | some r => r.2
| .opAddScene sid cn n d l cs p now =>
  match add_scene m sid cn n d l cs p now with
  | none => m
  | some r => r.2
| .opUpdateSceneContent sid cn si content now =>
  match update_scene_content m sid cn si content now with
  | none => m
  | some m' => m'

/-- Apply a sequence of API calls. -/
def applyOps (m : StoryManager) (ops : List Op) : StoryManager :=
  ops.foldl applyOp m

/-- Each scene has `word_count` equal to the character length of its `content`. -/
def Scene.wcInv (s : Scene) : Prop := s.word_count = s.content.length

/-- Each chapter has `actual_word_count` equal to the sum of the scene
word counts, each of which is the content length. -/
def Chapter.wcInv (c : Chapter) : Prop :=
  c.actual_word_count = sceneSum c.scenes ∧ ∀ s ∈ c.scenes, s.wcInv

/-- Each story has `current_word_count` equal to the sum over chapters of
`actual_word_count`, and each chapter satisfies its own invariant. -/
def Story.wcInv (s : Story) : Prop :=
  s.current_word_count = chapterSum s.chapters ∧ ∀ c ∈ s.chapters, c.wcInv

/-- Every story in the store satisfies the word-count invariant. -/
def StoryManager.wcInv (m : StoryManager) : Prop :=
  ∀ p ∈ m.stories, Story.wcInv p.2

instance (s : Scene) : Decidable s.wcInv := by
  unfold Scene.wcInv; infer_instance

instance (c : Chapter) : Decidable c.wcInv := by
  unfold Chapter.wcInv; infer_instance

instance (s : Story) : Decidable s.wcInv := by
  unfold Story.wcInv; infer_instance

instance (m : StoryManager) : Decidable m.wcInv := by
  unfold StoryManager.wcInv; infer_instance

lemma sumMap_set {α} (f : α → Nat) (l : List α) (j : Nat) (a : α)
    (h : j < l.length) (heq : f a = f (l.get ⟨j, h⟩)) :
    ((l.set j a).map f).sum = (l.map f).sum := by
  induction l generalizing j with
  | nil => simp at h
  | cons x xs ih =>
    cases j with
    | zero => simpa using heq.symm ▸ rfl
    | succ j =>
      have hj : j < xs.length := by simpa using h
      simp only [List.set, List.map_cons, List.sum_cons]
      rw [ih j hj (by simpa using heq)]

lemma dictSet_forall {α} (P : α → Prop) (m : List (String × α)) (k : String)
    (v : α) (hm : ∀ p ∈ m, P p.2) (hv : P v) :
    ∀ p ∈ dictSet m k v, P p.2 := by
  intro p hp
  unfold dictSet at hp
  split at hp
  · rcases List.mem_map.mp hp with ⟨q, hq, hpe⟩
    split at hpe
    · rw [← hpe]; exact hv
    · rw [← hpe]; exact hm q hq
  · rcases List.mem_append.mp hp with h | h
    · exact hm p h
    · rw [List.mem_singleton.mp h]; exact hv

lemma lookup_mem {α} (m : List (String × α)) (k : String) (v : α)
    (h : m.lookup k = some v) : (k, v) ∈ m := by
  induction m with
  | nil => simp [List.lookup] at h
  | cons p t ih =>
    obtain ⟨k', v'⟩ := p
    by_cases hk : k = k'
    · subst hk
      simp [List.lookup] at h
      simp [h]
    · have hkb : (k == k') = false := beq_false_of_ne hk
      simp only [List.lookup, hkb] at h
      exact List.mem_cons_of_mem _ (ih h)

lemma pyIdx_pySet {α} (l : List α) (i : Int) (a b : α)
    (h : pyIdx l i = some a) :
    ∃ (j : Nat) (hj : j < l.length),
      a = l.get ⟨j, hj⟩ ∧ pySet l i b = some (l.set j b) := by
  unfold pyIdx at h
  unfold pySet
  split at h
  case isTrue hc =>
    refine ⟨(pyResolve l.length i).toNat, by omega, ?_, ?_⟩
    · exact (Option.some.injEq _ _ ▸ h).symm
    · rw [if_pos hc]
  case isFalse => exact absurd h (by simp)

lemma chapterSum_append (l : List Chapter) (c : Chapter) :
    chapterSum (l ++ [c]) = chapterSum l + c.actual_word_count := by
  simp [chapterSum]

lemma sceneSum_append (l : List Scene) (s : Scene) :
    sceneSum (l ++ [s]) = sceneSum l + s.word_count := by
  simp [sceneSum]

lemma story_wcInv_append_chapter (story : Story) (hs : story.wcInv)
    (c : Chapter) (hc : c.wcInv) (hc0 : c.actual_word_count = 0)
    (now : String) :
    Story.wcInv { story with chapters := story.chapters ++ [c],
                             updated_at := now } := by
  constructor
  · show story.current_word_count = chapterSum (story.chapters ++ [c])
    rw [chapterSum_append, hc0, Nat.add_zero, hs.1]
  · intro x hx
    rcases List.mem_append.mp hx with h' | h'
    · exact hs.2 x h'
    · rw [List.mem_singleton.mp h']; exact hc

lemma wcInv_create_story (m : StoryManager) (h : m.wcInv)
    (t g s : String) (ts : Nat) (now : String) :
    (create_story m t g s ts now).2.wcInv := by
  intro p hp
  refine dictSet_forall Story.wcInv _ _ _ h ⟨rfl, ?_⟩ p hp
  intro c hc
  simp [mkStory] at hc

lemma wcInv_add_chapter (m : StoryManager) (h : m.wcInv)
    (sid t s now : String) (r : String × StoryManager)
    (hr : add_chapter m sid t s now = some r) : r.2.wcInv := by
  cases hl : m.stories.lookup sid with
  | none => simp [add_chapter, hl] at hr
  | some story =>
    simp only [add_chapter, hl, Option.some.injEq] at hr
    have hstory : story.wcInv := h _ (lookup_mem _ _ _ hl)
    rw [← hr]
    intro p hp
    refine dictSet_forall Story.wcInv _ _ _ h ?_ p hp
    refine story_wcInv_append_chapter story hstory _ ⟨rfl, ?_⟩ rfl now
    intro sc hsc
    simp [mkChapter] at hsc

lemma wcInv_add_scene (m : StoryManager) (h : m.wcInv) (sid : String)
    (cn : Int) (n d loc : String) (cs : List String) (p now : String)
    (r : String × StoryManager)
    (hr : add_scene m sid cn n d loc cs p now = some r) : r.2.wcInv := by
  cases hl : m.stories.lookup sid with
  | none => simp [add_scene, hl] at hr
  | some story =>
    simp only [add_scene, hl] at hr
    split at hr
    · exact absurd hr (by simp)
    · cases hidx : pyIdx story.chapters (cn - 1) with
      | none => simp [hidx] at hr
      | some chapter =>
        simp only [hidx] at hr
        obtain ⟨j, hj, hget, hset⟩ :=
          pyIdx_pySet story.chapters (cn - 1) chapter
            ({ chapter with scenes := chapter.scenes ++
              [mkScene (chapter.id ++ "_scene_" ++ Nat.repr (chapter.scenes.length + 1))
                n d loc cs p "" 0 "" []] }) hidx
        simp only [hset, Option.some.injEq] at hr
        have hstory : story.wcInv := h _ (lookup_mem _ _ _ hl)
        have hmem : chapter ∈ story.chapters := by
          rw [hget]; exact story.chapters.get_mem _ _
        have hchap : chapter.wcInv := hstory.2 _ hmem
        rw [← hr]
        intro q hq
        refine dictSet_forall Story.wcInv _ _ _ h ?_ q hq
        have hwc0 : (mkScene (chapter.id ++ "_scene_" ++
            Nat.repr (chapter.scenes.length + 1)) n d loc cs p "" 0 "" []).word_count = 0 := by
          simp [mkScene]
        have hchap' : ({ chapter with scenes := chapter.scenes ++
            [mkScene (chapter.id ++ "_scene_" ++ Nat.repr (chapter.scenes.length + 1))
              n d loc cs p "" 0 "" []] } : Chapter).wcInv := by
          constructor
          · show chapter.actual_word_count = sceneSum (chapter.scenes ++ [_])
            rw [sceneSum_append, hwc0, Nat.add_zero, hchap.1]
          · intro sc hs
            rcases List.mem_append.mp hs with h' | h'
            · exact hchap.2 sc h'
            · rw [List.mem_singleton.mp h']
              show _ = ("" : String).length
              rw [hwc0]; rfl
        constructor
        · show story.current_word_count = chapterSum (story.chapters.set j _)
          unfold chapterSum
          rw [sumMap_set Chapter.actual_word_count _ j _ hj (by rw [← hget])]
          exact hstory.1
        · intro c hc
          rcases List.mem_or_eq_of_mem_set hc with h' | h'
          · exact hstory.2 c h'
          · rw [h']; exact hchap'

lemma wcInv_update_scene_content (m : StoryManager) (h : m.wcInv)
    (sid : String) (cn si : Int) (content now : String) (m' : StoryManager)
    (hr : update_scene_content m sid cn si content now = some m') : m'.wcInv := by
  cases hl : m.stories.lookup sid with
  | none => simp [update_scene_content, hl] at hr
  | some story =>
    simp only [update_scene_content, hl] at hr
    cases hidx : pyIdx story.chapters (cn - 1) with
    | none => simp [hidx] at hr
    | some chapter =>
      simp only [hidx] at hr
      cases hsidx : pyIdx chapter.scenes si with
      | none => simp [hsidx] at hr
      | some scene =>
        simp only [hsidx] at hr
        obtain ⟨k, hk, hsget, hsset⟩ :=
          pyIdx_pySet chapter.scenes si scene
            ({ scene with content := content, word_count := content.length }) hsidx
        simp only [hsset] at hr
        obtain ⟨j, hj, hget, hset⟩ :=
          pyIdx_pySet story.chapters (cn - 1) chapter
            (Chapter.updateWordCount { chapter with
              scenes := chapter.scenes.set k
                { scene with content := content, word_count := content.length } }) hidx
        simp only [hset, Option.some.injEq] at hr
        have hstory : story.wcInv := h _ (lookup_mem _ _ _ hl)
        have hmem : chapter ∈ story.chapters := by
          rw [hget]; exact story.chapters.get_mem _ _
        have hchap : chapter.wcInv := hstory.2 _ hmem
        rw [← hr]
        intro q hq
        refine dictSet_forall Story.wcInv _ _ _ h ?_ q hq
        constructor
        · rfl
        · intro c hc
          rcases List.mem_or_eq_of_mem_set hc with h' | h'
          · exact hstory.2 c h'
          · rw [h']
            constructor
            · rfl
            · intro sc hs
              rcases List.mem_or_eq_of_mem_set hs with h'' | h''
              · exact hchap.2 sc h''
              · rw [h'']; rfl

lemma wcInv_applyOp (m : StoryManager) (h : m.wcInv) (op : Op) :
    (applyOp m op).wcInv := by
  cases op with
  | opCreateStory t g s ts now => exact wcInv_create_story m h t g s ts now
  | opAddChapter sid t s now =>
    simp only [applyOp]
    cases hr : add_chapter m sid t s now with
    | none => exact h
    | some r => exact wcInv_add_chapter m h sid t s now r hr
  | opAddScene sid cn n d l cs p now =>
    simp only [applyOp]
    cases hr : add_scene m sid cn n d l cs p now with
    | none => exact h
    | some r => exact wcInv_add_scene m h sid cn n d l cs p now r hr
  | opUpdateSceneContent sid cn si content now =>
    simp only [applyOp]
    cases hr : update_scene_content m sid cn si content now with
    | none => exact h
    | some m' => exact wcInv_update_scene_content m h sid cn si content now m' hr

lemma wcInv_applyOps (m : StoryManager) (h : m.wcInv) (ops : List Op) :
    (applyOps m ops).wcInv := by
  induction ops generalizing m with
  | nil => exact h
  | cons op rest ih => exact ih (applyOp m op) (wcInv_applyOp m h op)

/-- C1: after any sequence of `add_chapter`, `add_scene` and
`update_scene_content` calls (starting from any store satisfying the
word-count invariant, e.g. the empty one, with stories created by
`create_story`), every story's `current_word_count` is the sum over its
chapters of `actual_word_count`, each chapter's `actual_word_count` is the
sum of `len(scene.content)` over its scenes, and each scene's `word_count`
is the character length of its `content`. -/
theorem word_count_invariant (ops : List Op) (m : StoryManager)
    (h : m.wcInv) :
    ∀ p ∈ (applyOps m ops).stories,
      p.2.current_word_count = chapterSum p.2.chapters ∧
      ∀ c ∈ p.2.chapters,
        c.actual_word_count = (c.scenes.map (fun s => s.content.length)).sum ∧
        ∀ s ∈ c.scenes, s.word_count = s.content.length := by
  intro p hp
  have hinv := wcInv_applyOps m h ops p hp
  refine ⟨hinv.1, ?_⟩
  intro c hc
  have hcinv := hinv.2 c hc
  refine ⟨?_, hcinv.2⟩
  rw [hcinv.1]
  unfold sceneSum
  congr 1
  exact List.map_congr_left hcinv.2

/-- C1 witness: a concrete run (create a story, add a chapter, add a scene,
write 5 characters of content) from the empty store. -/
theorem word_count_invariant_witness :
    (StoryManager.wcInv ⟨[], none⟩) ∧
    ∀ p ∈ (applyOps ⟨[], none⟩
        [.opCreateStory "桃太郎" "fantasy" "冒険" 7 "T0",
         .opAddChapter "story_1_7" "第一章" "出発" "T1",
         .opAddScene "story_1_7" 1 "場面" "説明" "村" ["太郎"] "導入" "T2",
         .opUpdateSceneContent "story_1_7" 1 0 "あいうえお" "T3"]).stories,
      p.2.current_word_count = chapterSum p.2.chapters ∧
      ∀ c ∈ p.2.chapters,
        c.actual_word_count = (c.scenes.map (fun s => s.content.length)).sum ∧
        ∀ s ∈ c.scenes, s.word_count = s.content.length :=
  ⟨by decide,
   word_count_invariant
     [.opCreateStory "桃太郎" "fantasy" "冒険" 7 "T0",
      .opAddChapter "story_1_7" "第一章" "出発" "T1",
      .opAddScene "story_1_7" 1 "場面" "説明" "村" ["太郎"] "導入" "T2",
      .opUpdateSceneContent "story_1_7" 1 0 "あいうえお" "T3"]
     ⟨[], none⟩ (by decide)⟩

/-- Holds when `needle` occurs as a contiguous substring of `hay`. -/
def strInfix (needle hay : String) : Prop := needle.data <:+: hay.data

instance (n h : String) : Decidable (strInfix n h) := by
  unfold strInfix; exact List.decidableInfix _ _

/-- Python `sep.join(parts)`. -/
def pyJoin (sep : String) : List String → String
| [] => ""
| [x] => x
| x :: y :: rest => x ++ sep ++ pyJoin sep (y :: rest)

lemma strInfix_of_eq_append (a s b : String) : strInfix s (a ++ s ++ b) :=
  ⟨a.data, b.data, by simp [String.data_append]⟩

lemma strInfix_appendRight (s t : String) : strInfix s (s ++ t) := by
  have := strInfix_of_eq_append "" s t
  simpa using this

lemma strInfix_appendLeft (s t : String) : strInfix s (t ++ s) := by
  have := strInfix_of_eq_append t s ""
  simpa using this

lemma strInfix_trans {a b c : String} (h1 : strInfix a b) (h2 : strInfix b c) :
    strInfix a c := List.IsInfix.trans h1 h2

lemma strInfix_pyJoin (sep : String) (parts : List String) (p : String)
    (hp : p ∈ parts) : strInfix p (pyJoin sep parts) := by
  induction parts with
  | nil => simp at hp
  | cons x rest ih =>
    cases rest with
    | nil =>
      have hx : p = x := List.mem_singleton.mp hp
      subst hx
      exact List.infix_refl _
    | cons y t =>
      rcases List.mem_cons.mp hp with h | h
      · subst h
        exact ⟨[], (sep ++ pyJoin sep (y :: t)).data,
          by simp [pyJoin, String.data_append]⟩
      · exact strInfix_trans (ih h)
          ⟨(x ++ sep).data, [], by simp [pyJoin, String.data_append]⟩

/-- The scene overview lines inside `get_story_context`
(`for i, scene in enumerate(chapter.scenes, 1)`). -/
def sceneSummaryLines (scenes : List Scene) : List String :=
  (List.enumFrom 1 scenes).flatMap (fun p =>
    ["    " ++ Nat.repr p.1 ++ ". " ++ p.2.name ++ " (" ++ p.2.location ++ ")",
     "       目的: " ++ p.2.purpose]
    ++ (if p.2.content = "" then [] else ["       文字数: " ++ Nat.repr p.2.word_count]))

/-- The block one chapter contributes inside `get_story_context`. -/
def chapterOverviewLines (c : Chapter) : List String :=
  ["第" ++ Nat.repr c.number ++ "章: " ++ c.title,
   "  概要: " ++ c.summary,
   "  状態: " ++ c.status.value,
   "  進捗: " ++ Nat.repr c.actual_word_count ++ "/" ++
     Nat.repr c.target_word_count ++ "文字"]
  ++ (if c.scenes = [] then [] else "  シーン:" :: sceneSummaryLines c.scenes)
  ++ [""]

/-- The `context_parts` list built by `StoryManager.get_story_context`. -/
def storyContextParts (story : Story) : List String :=
  ["=== 物語: " ++ story.title ++ " ===",
   "ジャンル: " ++ story.genre,
   "あらすじ: " ++ story.summary,
   "進捗: " ++ Nat.repr story.current_word_count ++ "/" ++
     Nat.repr story.target_word_count ++ "文字",
   "",
   "=== 章構成 ==="]
  ++ story.chapters.flatMap chapterOverviewLines

/-- Model of `StoryManager.get_story_context`: returns `""` for an unknown story
(an explicit membership test guards the lookup). -/
def get_story_context (m : StoryManager) (story_id : String) : String :=
  match m.stories.lookup story_id with
  | none => ""
  | some story => pyJoin "\n" (storyContextParts story)

/-- Model of `chapter.status in [ChapterStatus.DRAFTING, ChapterStatus.OUTLINE]`. -/
def isWipStatus (c : Chapter) : Bool :=
  c.status == ChapterStatus.drafting || c.status == ChapterStatus.outline

/-- The chapter selected by `get_current_chapter_context`: the first
drafting/outline chapter, else the last chapter, else `none`. -/
def currentChapter (story : Story) : Option Chapter :=
  match story.chapters.find? isWipStatus with
  | some c => some c
  | none => story.chapters.getLast?

/-- The per-scene lines of `get_current_chapter_context`
(`for i, scene in enumerate(current_chapter.scenes, 1)`). -/
def chapterSceneLines (scenes : List Scene) : List String :=
  (List.enumFrom 1 scenes).flatMap (fun p =>
    ["【シーン" ++ Nat.repr p.1 ++ ": " ++ p.2.name ++ "】",
     "場所: " ++ p.2.location,
     "登場人物: " ++ pyJoin ", " p.2.characters,
     "目的: " ++ p.2.purpose]
    ++ (if p.2.content = "" then [] else ["内容:", p.2.content])
    ++ [""])

/-- The `context_parts` list of `get_current_chapter_context`. -/
def currentChapterParts (c : Chapter) : List String :=
  ["=== 現在の章: 第" ++ Nat.repr c.number ++ "章 " ++ c.title ++ " ===",
   "概要: " ++ c.summary,
   ""] ++ chapterSceneLines c.scenes

/-- Model of `StoryManager.get_current_chapter_context`; `none` models the uncaught
`KeyError` on an unknown story id. -/
def get_current_chapter_context (m : StoryManager) (story_id : String) :
    Option String :=
  match m.stories.lookup story_id with
  | none => none
  | some story =>
    match currentChapter story with
    | none => some ""
    | some c => some (pyJoin "\n" (currentChapterParts c))

def introSuggestion : String := "物語の導入部分をもっと詳しく描写しましょう"

def relationshipSuggestion : String := "キャラクターの関係性を深く掘り下げましょう"

def tensionSuggestion : String := "クライマックスに向けて緊張感を高めましょう"

def endingSuggestion : String := "結末に向けて伏線を回収していきましょう"

/-- The progress branch of `get_writing_suggestions`.  The Python float
comparisons `current < target * 0.1 / 0.5 / 0.8` are modelled exactly over
the rationals: `w < T * 0.1 ↔ 10 * w < T`, `w < T * 0.5 ↔ 2 * w < T`,
`w < T * 0.8 ↔ 10 * w < 8 * T`. -/
def progressSuggestion (story : Story) : String :=
  if 10 * story.current_word_count < story.target_word_count then
    introSuggestion
  else if 2 * story.current_word_count < story.target_word_count then
    relationshipSuggestion
  else if 10 * story.current_word_count < 8 * story.target_word_count then
    tensionSuggestion
  else endingSuggestion

/-- The per-chapter suggestions appended by the loop in
`get_writing_suggestions` (0 or 1 entries per chapter). -/
def chapterSuggestion (c : Chapter) : List String :=
  if c.status == ChapterStatus.planned then
    ["第" ++ Nat.repr c.number ++ "章のアウトラインを作成しましょう"]
  else if c.status == ChapterStatus.outline then
    ["第" ++ Nat.repr c.number ++ "章の執筆を開始しましょう"]
  else []

/-- The message emitted for a planned/outline chapter. -/
def chapterSuggestionMsg (c : Chapter) : String :=
  if c.status == ChapterStatus.planned then
    "第" ++ Nat.repr c.number ++ "章のアウトラインを作成しましょう"
  else "第" ++ Nat.repr c.number ++ "章の執筆を開始しましょう"

/-- Model of `StoryManager.get_writing_suggestions`; `none` models the uncaught
`KeyError` on an unknown story id. -/
def get_writing_suggestions (m : StoryManager) (story_id : String) :
    Option (List String) :=
  match m.stories.lookup story_id with
  | none => none
  | some story =>
    some (story.chapters.foldl (fun acc c => acc ++ chapterSuggestion c)
      [progressSuggestion story])

lemma foldl_append_flatMap {α} (g : α → List String) (l : List α)
    (init : List String) :
    l.foldl (fun acc c => acc ++ g c) init = init ++ l.flatMap g := by
  induction l generalizing init with
  | nil => simp
  | cons x xs ih => simp [ih, List.append_assoc]

lemma flatMap_chapterSuggestion (l : List Chapter) :
    l.flatMap chapterSuggestion =
      (l.filter (fun c => c.status == ChapterStatus.planned ||
        c.status == ChapterStatus.outline)).map chapterSuggestionMsg := by
  induction l with
  | nil => rfl
  | cons c t ih =>
    cases hc : c.status <;>
      simp [chapterSuggestion, chapterSuggestionMsg, List.filter_cons, hc, ih]

lemma find?_first {α} (p : α → Bool) (l₁ : List α) (c : α) (l₂ : List α)
    (hc : p c = true) (h1 : ∀ x ∈ l₁, p x = false) :
    List.find? p (l₁ ++ c :: l₂) = some c := by
  induction l₁ with
  | nil => simp [List.find?_cons, hc]
  | cons x t ih =>
    have hx := h1 x (by simp)
    simp only [List.cons_append, List.find?_cons, hx]
    exact ih (fun y hy => h1 y (by simp [hy]))

/-- C10: for a story id absent from the store, `get_story_context` returns
the empty string without raising, while `get_current_chapter_context` and
`get_writing_suggestions` raise an uncaught `KeyError` (modelled as
`none`). -/
theorem missing_story_behavior (m : StoryManager) (sid : String)
    (h : m.stories.lookup sid = none) :
    get_story_context m sid = "" ∧
    get_current_chapter_context m sid = none ∧
    get_writing_suggestions m sid = none := by
  refine ⟨?_, ?_, ?_⟩ <;>
    simp [get_story_context, get_current_chapter_context,
      get_writing_suggestions, h]

/-- C10 witness: the empty store and the id "missing". -/
theorem missing_story_behavior_witness :
    (StoryManager.mk [] none).stories.lookup "missing" = none ∧
    (get_story_context ⟨[], none⟩ "missing" = "" ∧
     get_current_chapter_context ⟨[], none⟩ "missing" = none ∧
     get_writing_suggestions ⟨[], none⟩ "missing" = none) :=
  ⟨rfl, missing_story_behavior ⟨[], none⟩ "missing" rfl⟩

lemma content_mem_chapterSceneLines (scenes : List Scene) (s : Scene)
    (hs : s ∈ scenes) (hne : s.content ≠ "") :
    s.content ∈ chapterSceneLines scenes := by
  have hmap : s ∈ (List.enumFrom 1 scenes).map Prod.snd := by
    rw [List.enumFrom_map_snd]; exact hs
  rcases List.mem_map.mp hmap with ⟨pr, hpr, hsnd⟩
  unfold chapterSceneLines
  refine List.mem_flatMap.mpr ⟨pr, hpr, ?_⟩
  rw [hsnd]
  simp [hne]

lemma strInfix_empty (s : String) : strInfix "" s :=
  ⟨[], s.data, by simp⟩

/-- C6: for a story in the store, the current-chapter context selects the
first chapter (in collection order) whose status is drafting or outline,
falls back to the last chapter when no chapter has such a status, renders
the full content text of the selected chapter's scenes, and returns the
empty string when the story has no chapters. -/
theorem current_chapter_context_correct (m : StoryManager) (sid : String)
    (story : Story) (h : m.stories.lookup sid = some story) :
    (story.chapters = [] → get_current_chapter_context m sid = some "") ∧
    (∀ c, currentChapter story = some c →
      get_current_chapter_context m sid =
        some (pyJoin "\n" (currentChapterParts c)) ∧
      ∀ s ∈ c.scenes, strInfix s.content (pyJoin "\n" (currentChapterParts c))) ∧
    (∀ l₁ c l₂, story.chapters = l₁ ++ c :: l₂ → isWipStatus c = true →
      (∀ x ∈ l₁, isWipStatus x = false) → currentChapter story = some c) ∧
    ((∀ x ∈ story.chapters, isWipStatus x = false) →
      currentChapter story = story.chapters.getLast?) := by
  refine ⟨?_, ?_, ?_, ?_⟩
  · intro hnil
    simp [get_current_chapter_context, h, currentChapter, hnil]
  · intro c hc
    constructor
    · simp [get_current_chapter_context, h, hc]
    · intro s hs
      by_cases hne : s.content = ""
      · rw [hne]; exact strInfix_empty _
      · refine strInfix_trans ?_ (strInfix_pyJoin "\n" (currentChapterParts c)
          s.content ?_)
        · exact List.infix_refl _
        · unfold currentChapterParts
          exact List.mem_append.mpr
            (Or.inr (content_mem_chapterSceneLines c.scenes s hs hne))
  · intro l₁ c l₂ heq hwip hprev
    have hf : story.chapters.find? isWipStatus = some c := by
      rw [heq]; exact find?_first isWipStatus l₁ c l₂ hwip hprev
    simp [currentChapter, hf]
  · intro hall
    have hf : story.chapters.find? isWipStatus = none :=
      List.find?_eq_none.mpr (fun x hx => by simp [hall x hx])
    simp [currentChapter, hf]

def c6Scene : Scene := mkScene "sc" "場面" "d" "森" ["主人公"] "目的" "昔々あるところに" 0 "" []

def c6ChapterA : Chapter := mkChapter "ch1" 1 "一" "a" [] .completed 3000 "" "T"

def c6ChapterB : Chapter := mkChapter "ch2" 2 "二" "b" [c6Scene] .drafting 3000 "" "T"

def c6Story : Story := mkStory "s6" "t" "g" "sum" [c6ChapterA, c6ChapterB] 50000 "planning" "T"

def c6M : StoryManager := ⟨[("s6", c6Story)], none⟩

/-- C6 witness: a story whose first chapter is completed and whose second is
drafting; the second is selected and its scene content appears in the
output. -/
theorem current_chapter_context_correct_witness :
    (c6M.stories.lookup "s6" = some c6Story) ∧
    currentChapter c6Story = some c6ChapterB ∧
    get_current_chapter_context c6M "s6" =
      some (pyJoin "\n" (currentChapterParts c6ChapterB)) ∧
    strInfix "昔々あるところに" (pyJoin "\n" (currentChapterParts c6ChapterB)) := by
  have h := current_chapter_context_correct c6M "s6" c6Story rfl
  have hcur : currentChapter c6Story = some c6ChapterB :=
    h.2.2.1 [c6ChapterA] c6ChapterB [] rfl (by decide) (by decide)
  have h2 := h.2.1 c6ChapterB hcur
  exact ⟨rfl, hcur, h2.1, h2.2 c6Scene (by decide)⟩

/-- C7: for a story in the store, `get_writing_suggestions` returns exactly
one progress suggestion selected by the 10% / 50% / 80% thresholds of the
target word count, followed by exactly one suggestion per chapter whose
status is planned or outline. -/
theorem writing_suggestions_correct (m : StoryManager) (sid : String)
    (story : Story) (h : m.stories.lookup sid = some story) :
    get_writing_suggestions m sid =
      some (progressSuggestion story ::
        (story.chapters.filter (fun c => c.status == ChapterStatus.planned ||
          c.status == ChapterStatus.outline)).map chapterSuggestionMsg) ∧
    (10 * story.current_word_count < story.target_word_count →
      progressSuggestion story = introSuggestion) ∧
    (story.target_word_count ≤ 10 * story.current_word_count →
      2 * story.current_word_count < story.target_word_count →
      progressSuggestion story = relationshipSuggestion) ∧
    (story.target_word_count ≤ 2 * story.current_word_count →
      10 * story.current_word_count < 8 * story.target_word_count →
      progressSuggestion story = tensionSuggestion) ∧
    (8 * story.target_word_count ≤ 10 * story.current_word_count →
      progressSuggestion story = endingSuggestion) := by
  refine ⟨?_, ?_, ?_, ?_, ?_⟩
  · simp only [get_writing_suggestions, h]
    rw [foldl_append_flatMap, flatMap_chapterSuggestion]
    rfl
  · intro h1
    rw [progressSuggestion, if_pos h1]
  · intro h1 h2
    rw [progressSuggestion, if_neg (by omega), if_pos h2]
  · intro h1 h2
    rw [progressSuggestion, if_neg (by omega), if_neg (by omega), if_pos h2]
  · intro h1
    rw [progressSuggestion, if_neg (by omega), if_neg (by omega),
      if_neg (by omega)]

def c7Scene : Scene :=
  mkScene "sc" "n" "d" "l" [] "p" (String.mk (List.replicate 50 'あ')) 0 "" []

def c7Chapter : Chapter := mkChapter "c" 1 "ch" "sm" [c7Scene] .drafting 3000 "" "T"

def c7Story : Story := mkStory "s7" "t" "fantasy" "sum" [c7Chapter] 1000 "planning" "T"

def c7M : StoryManager := ⟨[("s7", c7Story)], none⟩

/-- C7 witness: the example from the spec — `target_word_count = 1000` and one
scene of 50 characters yields the introduction suggestion only. -/
theorem writing_suggestions_correct_witness :
    (c7M.stories.lookup "s7" = some c7Story) ∧
    get_writing_suggestions c7M "s7" = some [introSuggestion] := by
  have h := writing_suggestions_correct c7M "s7" c7Story rfl
  refine ⟨rfl, ?_⟩
  rw [h.1, h.2.1 (by decide)]
  decide

lemma toDigitsCore_append10 : ∀ (fuel n : Nat) (ds : List Char),
    Nat.toDigitsCore 10 fuel n ds = Nat.toDigitsCore 10 fuel n [] ++ ds := by
  intro fuel
  induction fuel with
  | zero => intro n ds; simp [Nat.toDigitsCore]
  | succ f ih =>
    intro n ds
    simp only [Nat.toDigitsCore]
    by_cases h : n / 10 = 0
    · simp [h]
    · simp only [h, if_false]
      rw [ih (n / 10) (Nat.digitChar (n % 10) :: ds),
        ih (n / 10) [Nat.digitChar (n % 10)]]
      simp

lemma digitChar_ne_underscore (n : Nat) (h : n < 10) :
    Nat.digitChar n ≠ '_' := by
  interval_cases n <;> decide

/-- Numeric value of a decimal digit character. -/
def charVal (c : Char) : Nat :=
  if c = '0' then 0 else if c = '1' then 1 else if c = '2' then 2
  else if c = '3' then 3 else if c = '4' then 4 else if c = '5' then 5
  else if c = '6' then 6 else if c = '7' then 7 else if c = '8' then 8
  else if c = '9' then 9 else 0

lemma charVal_digitChar (n : Nat) (h : n < 10) :
    charVal (Nat.digitChar n) = n := by
  interval_cases n <;> decide

/-- Numeric value of a decimal digit string. -/
def digitsVal (l : List Char) : Nat :=
  l.foldl (fun a c => 10 * a + charVal c) 0

lemma digitsVal_append (l : List Char) (c : Char) :
    digitsVal (l ++ [c]) = 10 * digitsVal l + charVal c := by
  simp [digitsVal, List.foldl_append]

lemma toDigitsCore_val : ∀ (fuel n : Nat), n < fuel →
    digitsVal (Nat.toDigitsCore 10 fuel n []) = n := by
  intro fuel
  induction fuel with
  | zero => intro n h; omega
  | succ f ih =>
    intro n h
    simp only [Nat.toDigitsCore]
    by_cases h0 : n / 10 = 0
    · simp only [h0, if_pos]
      have hn : n % 10 = n := by omega
      simp [digitsVal, hn, charVal_digitChar n (by omega)]
    · simp only [h0, if_false]
      rw [toDigitsCore_append10 f (n / 10) [Nat.digitChar (n % 10)],
        digitsVal_append, ih (n / 10) (by omega),
        charVal_digitChar _ (by omega)]
      omega

lemma repr_digitsVal (n : Nat) : digitsVal (Nat.repr n).data = n := by
  have h : (Nat.repr n).data = Nat.toDigitsCore 10 (n + 1) n [] := rfl
  rw [h]
  exact toDigitsCore_val (n + 1) n (by omega)

lemma toDigitsCore_no_underscore : ∀ (fuel n : Nat) (ds : List Char),
    (∀ c ∈ ds, c ≠ '_') → ∀ c ∈ Nat.toDigitsCore 10 fuel n ds, c ≠ '_' := by
  intro fuel
  induction fuel with
  | zero => intro n ds hds; simpa [Nat.toDigitsCore] using hds
  | succ f ih =>
    intro n ds hds
    simp only [Nat.toDigitsCore]
    by_cases h0 : n / 10 = 0
    · simp only [h0, if_pos]
      intro c hc
      rcases List.mem_cons.mp hc with h | h
      · subst h; exact digitChar_ne_underscore _ (by omega)
      · exact hds c h
    · simp only [h0, if_false]
      refine ih (n / 10) _ ?_
      intro c hc
      rcases List.mem_cons.mp hc with h | h
      · subst h; exact digitChar_ne_underscore _ (by omega)
      · exact hds c h

lemma repr_no_underscore (n : Nat) : ∀ c ∈ (Nat.repr n).data, c ≠ '_' := by
  have h : (Nat.repr n).data = Nat.toDigitsCore 10 (n + 1) n [] := rfl
  rw [h]
  exact toDigitsCore_no_underscore (n + 1) n [] (by simp)

lemma underscore_split : ∀ (u v x y : List Char), (∀ c ∈ u, c ≠ '_') →
    (∀ c ∈ v, c ≠ '_') → u ++ '_' :: x = v ++ '_' :: y → u = v ∧ x = y := by
  intro u
  induction u with
  | nil =>
    intro v x y _ hv h
    cases v with
    | nil => simpa using h
    | cons a t =>
      simp only [List.nil_append, List.cons_append, List.cons.injEq] at h
      exact absurd h.1.symm (hv a (by simp))
  | cons a u ih =>
    intro v x y hu hv h
    cases v with
    | nil =>
      simp only [List.nil_append, List.cons_append, List.cons.injEq] at h
      exact absurd h.1 (hu a (by simp))
    | cons b t =>
      simp only [List.cons_append, List.cons.injEq] at h
      obtain ⟨hab, hrest⟩ := h
      obtain ⟨h1, h2⟩ := ih t x y (fun c hc => hu c (by simp [hc]))
        (fun c hc => hv c (by simp [hc])) hrest
      exact ⟨by rw [hab, h1], h2⟩

lemma string_data_inj {a b : String} (h : a.data = b.data) : a = b := by
  cases a; cases b; exact congrArg String.mk h

lemma mkStoryId_data (i ts : Nat) :
    (mkStoryId i ts).data =
      "story_".data ++ ((Nat.repr i).data ++ '_' :: (Nat.repr ts).data) := by
  have h1 : ("_" : String).data = ['_'] := rfl
  simp [mkStoryId, String.data_append, h1]

lemma mkStoryId_inj_idx (i j ts ts' : Nat)
    (h : mkStoryId i ts = mkStoryId j ts') : i = j := by
  have hd := congrArg String.data h
  rw [mkStoryId_data, mkStoryId_data] at hd
  have hd2 := List.append_cancel_left hd
  obtain ⟨h1, _⟩ := underscore_split _ _ _ _ (repr_no_underscore i)
    (repr_no_underscore j) hd2
  have hv := congrArg digitsVal h1
  rw [repr_digitsVal, repr_digitsVal] at hv
  exact hv

/-- Every key in the store has the shape `story_{i}_{ts}` with index at
most the store's size; this holds in every state reachable through
`create_story` (indices are assigned as count + 1 and stories are never
deleted or renamed). -/
def storeIdInv (m : StoryManager) : Prop :=
  ∀ p ∈ m.stories, ∃ i ts, i ≤ m.stories.length ∧ p.1 = mkStoryId i ts

lemma lookup_eq_none {α} (m : List (String × α)) (k : String)
    (h : ∀ p ∈ m, p.1 ≠ k) : m.lookup k = none := by
  induction m with
  | nil => rfl
  | cons p t ih =>
    obtain ⟨k', v'⟩ := p
    have hne : (k == k') = false :=
      beq_false_of_ne fun he => h (k', v') (by simp) (by simp [he])
    simp only [List.lookup, hne]
    exact ih fun q hq => h q (by simp [hq])

lemma lookup_append_self {α} (m : List (String × α)) (k : String) (v : α)
    (h : m.lookup k = none) : (m ++ [(k, v)]).lookup k = some v := by
  induction m with
  | nil => simp [List.lookup]
  | cons p t ih =>
    obtain ⟨k', v'⟩ := p
    by_cases hk : k = k'
    · subst hk
      simp [List.lookup] at h
    · have hne : (k == k') = false := beq_false_of_ne hk
      simp only [List.lookup, hne] at h ⊢
      exact ih h

/-- C8: in any store whose keys were generated by `create_story` (captured
by `storeIdInv`), `create_story` returns an id distinct from every id
already present, and immediately afterwards that id maps to a story with
`current_word_count = 0` and no chapters. -/
theorem create_story_correct (m : StoryManager) (hid : storeIdInv m)
    (title genre summary : String) (ts : Nat) (now : String) :
    m.stories.lookup (create_story m title genre summary ts now).1 = none ∧
    (create_story m title genre summary ts now).2.stories.lookup
        (create_story m title genre summary ts now).1 =
      some (mkStory (mkStoryId (m.stories.length + 1) ts) title genre summary
        [] 50000 "planning" now) ∧
    (mkStory (mkStoryId (m.stories.length + 1) ts) title genre summary
        [] 50000 "planning" now).current_word_count = 0 ∧
    (mkStory (mkStoryId (m.stories.length + 1) ts) title genre summary
        [] 50000 "planning" now).chapters = [] := by
  have hfresh : m.stories.lookup (mkStoryId (m.stories.length + 1) ts) = none := by
    apply lookup_eq_none
    intro p hp he
    obtain ⟨i, ts', hle, hpe⟩ := hid p hp
    rw [hpe] at he
    have := mkStoryId_inj_idx i (m.stories.length + 1) ts' ts he
    omega
  refine ⟨hfresh, ?_, rfl, rfl⟩
  show (dictSet m.stories _ _).lookup _ = _
  unfold dictSet
  rw [hfresh]
  simp only [Option.isSome_none, Bool.false_eq_true, if_false]
  exact lookup_append_self _ _ _ hfresh

def c8Story : Story := mkStory "story_1_5" "a" "b" "c" [] 50000 "planning" "T"

def c8M : StoryManager := ⟨[("story_1_5", c8Story)], none⟩

/-- C8 witness: a store holding one story with id `story_1_5`; creating a
new story at timestamp 42 yields the fresh id `story_2_42`. -/
theorem create_story_correct_witness :
    storeIdInv c8M ∧
    (c8M.stories.lookup (create_story c8M "題" "fantasy" "要約" 42 "T2").1 = none ∧
     (create_story c8M "題" "fantasy" "要約" 42 "T2").2.stories.lookup
         (create_story c8M "題" "fantasy" "要約" 42 "T2").1 =
       some (mkStory (mkStoryId (c8M.stories.length + 1) 42) "題" "fantasy"
         "要約" [] 50000 "planning" "T2") ∧
     (mkStory (mkStoryId (c8M.stories.length + 1) 42) "題" "fantasy" "要約"
         [] 50000 "planning" "T2").current_word_count = 0 ∧
     (mkStory (mkStoryId (c8M.stories.length + 1) 42) "題" "fantasy" "要約"
         [] 50000 "planning" "T2").chapters = []) := by
  have hinv : storeIdInv c8M := by
    intro p hp
    have hp' : p = ("story_1_5", c8Story) := by simpa [c8M] using hp
    refine ⟨1, 5, by simp [c8M], ?_⟩
    rw [hp']
    rfl
  exact ⟨hinv, create_story_correct c8M hinv "題" "fantasy" "要約" 42 "T2"⟩

/-- Model of `WorldSetting` dataclass from world_manager.py.  The open `details:
Dict[str, Any]` map is modelled with its values rendered to strings (the
only use in context building is the f-string `f"  - {key}: {value}"`; any
JSON value round-trips identically, so this loses no generality for the
claims considered). -/
structure WorldSetting where
  id : String
  name : String
  type : SettingType
  description : String
  details : List (String × String)
  related_settings : List String
  created_at : String
  updated_at : String
deriving DecidableEq, Repr

/-- Model of `TimelineEvent` dataclass from world_manager.py. -/
structure TimelineEvent where
  id : String
  name : String
  description : String
  year : Int
  month : Option Int
  day : Option Int
  importance : Int
  related_characters : List String
  related_settings : List String
  consequences : List String
deriving DecidableEq, Repr

/-- Model of `PlotThread` dataclass from world_manager.py (`status` is a free
string). -/
structure PlotThread where
  id : String
  name : String
  description : String
  setup_events : List String
  payoff_events : List String
  status : String
  importance : Int
  related_characters : List String
deriving DecidableEq, Repr

/-- In-memory state of `WorldManager`. -/
structure WorldManager where
  settings : List (String × WorldSetting)
  timeline : List (String × TimelineEvent)
  plot_threads : List (String × PlotThread)
deriving DecidableEq, Repr

/-- The sort key of `sorted(..., key=lambda x: x.year)`. -/
def yearLe (a b : TimelineEvent) : Prop := a.year ≤ b.year

instance : DecidableRel yearLe := fun a b => by unfold yearLe; infer_instance

instance : IsTotal TimelineEvent yearLe := ⟨fun a b => Int.le_total a.year b.year⟩

instance : IsTrans TimelineEvent yearLe := ⟨fun _ _ _ h1 h2 => Int.le_trans h1 h2⟩

/-- The lines one setting contributes to `get_world_context` (the source
guards the detail loop with `if setting.details:`, which is a no-op for an
empty map). -/
def settingLines (s : WorldSetting) : List String :=
  ["【" ++ s.name ++ "】(" ++ s.type.value ++ ")", s.description]
  ++ s.details.map (fun kv => "  - " ++ kv.1 ++ ": " ++ kv.2)
  ++ [""]

/-- Model of `relevant_types is None or setting.type in relevant_types`. -/
def filteredSettings (w : WorldManager)
    (relevant_types : Option (List SettingType)) : List WorldSetting :=
  (dictVals w.settings).filter (fun s =>
    match relevant_types with
    | none => true
    | some ts => ts.contains s.type)

/-- Model of `sorted([e for e in timeline.values() if e.importance >= 3],
key=lambda x: x.year)`.  Python `sorted` is stable;
`List.insertionSort` is the matching stable sort. -/
def importantEvents (w : WorldManager) : List TimelineEvent :=
  List.insertionSort yearLe
    ((dictVals w.timeline).filter (fun e => 3 ≤ e.importance))

/-- The lines one important event contributes to `get_world_context`. -/
def eventLines (e : TimelineEvent) : List String :=
  ["【" ++ Int.repr e.year ++ "年】" ++ e.name, e.description, ""]

/-- Model of `[p for p in plot_threads.values() if p.status == "active"]`. -/
def activePlots (w : WorldManager) : List PlotThread :=
  (dictVals w.plot_threads).filter (fun p => p.status == "active")

/-- The lines one active plot contributes to `get_world_context`. -/
def plotLines (p : PlotThread) : List String :=
  ["【" ++ p.name ++ "】", p.description, ""]

/-- The `context_parts` list built by `WorldManager.get_world_context`. -/
def worldContextParts (w : WorldManager)
    (relevant_types : Option (List SettingType)) : List String :=
  ("=== 世界設定 ===" :: (filteredSettings w relevant_types).flatMap settingLines)
  ++ ("=== 重要な歴史 ===" :: (importantEvents w).flatMap eventLines)
  ++ ("=== アクティブな伏線 ===" :: (activePlots w).flatMap plotLines)

/-- Model of `WorldManager.get_world_context`. -/
def get_world_context (w : WorldManager)
    (relevant_types : Option (List SettingType)) : String :=
  pyJoin "\n" (worldContextParts w relevant_types)

/-- Model of `f"伏線「{plot.name}」が未回収です"`. -/
def plotIssueMsg (p : PlotThread) : String :=
  "伏線「" ++ p.name ++ "」が未回収です"

/-- Model of `WorldManager.check_consistency`.  The source also builds an
`events_by_year` grouping of the timeline, but that grouping is dead code:
it never contributes to the returned issues. -/
def check_consistency (w : WorldManager) : List String :=
  (dictVals w.plot_threads).foldl (fun issues p =>
    if p.status == "active" && p.payoff_events.isEmpty then
      issues ++ [plotIssueMsg p]
    else issues) []

/-- The `GET /world/timeline` endpoint of advanced_main.py:
`sorted(world_manager.timeline.values(), key=lambda x: x.year)`. -/
def get_timeline (w : WorldManager) : List TimelineEvent :=
  List.insertionSort yearLe (dictVals w.timeline)

lemma strInfix_of_data (n h : String) (pre suf : List Char)
    (he : h.data = pre ++ n.data ++ suf) : strInfix n h :=
  ⟨pre, suf, he.symm⟩

lemma check_fold (l : List PlotThread) (init : List String) :
    l.foldl (fun issues p =>
      if p.status == "active" && p.payoff_events.isEmpty then
        issues ++ [plotIssueMsg p]
      else issues) init =
    init ++ (l.filter (fun p => p.status == "active" &&
      p.payoff_events.isEmpty)).map plotIssueMsg := by
  induction l generalizing init with
  | nil => simp
  | cons p t ih =>
    simp only [List.foldl_cons, List.filter_cons]
    by_cases hp : (p.status == "active" && p.payoff_events.isEmpty) = true
    · rw [if_pos hp, if_pos hp, ih, List.map_cons]
      simp [List.append_assoc]
    · rw [if_neg hp, if_neg hp, ih]

/-- C4: `check_consistency` returns exactly one message per plot thread
with `status == "active"` and an empty payoff list (in collection order),
and is empty exactly when every active thread has at least one payoff
event. -/
theorem check_consistency_correct (w : WorldManager) :
    check_consistency w =
      ((dictVals w.plot_threads).filter (fun p => p.status == "active" &&
        p.payoff_events.isEmpty)).map plotIssueMsg ∧
    (check_consistency w = [] ↔
      ∀ p ∈ dictVals w.plot_threads, p.status = "active" →
        p.payoff_events ≠ []) := by
  have hfold : check_consistency w =
      ((dictVals w.plot_threads).filter (fun p => p.status == "active" &&
        p.payoff_events.isEmpty)).map plotIssueMsg := by
    unfold check_consistency
    rw [check_fold]
    simp
  refine ⟨hfold, ?_⟩
  rw [hfold]
  constructor
  · intro hnil p hp hact hpay
    have : p ∈ (dictVals w.plot_threads).filter (fun p =>
        p.status == "active" && p.payoff_events.isEmpty) := by
      refine List.mem_filter.mpr ⟨hp, ?_⟩
      simp [hact, hpay]
    rw [List.map_eq_nil_iff] at hnil
    rw [hnil] at this
    simp at this
  · intro hall
    rw [List.map_eq_nil_iff]
    rw [List.filter_eq_nil_iff]
    intro p hp
    simp only [Bool.and_eq_true, beq_iff_eq, List.isEmpty_iff, not_and]
    intro hact
    exact hall p hp hact

def c4PlotA : PlotThread := ⟨"plot_1", "王家の秘密", "d", ["e1"], [], "active", 1, []⟩

def c4PlotB : PlotThread := ⟨"plot_2", "古代の剣", "d", ["e2"], ["e9"], "active", 1, []⟩

def c4PlotC : PlotThread := ⟨"plot_3", "裏切り", "d", [], [], "resolved", 1, []⟩

def c4W : WorldManager := ⟨[], [], [("plot_1", c4PlotA), ("plot_2", c4PlotB), ("plot_3", c4PlotC)]⟩

/-- C4 witness: of three threads (active without payoff, active with
payoff, resolved without payoff) exactly the first is reported. -/
theorem check_consistency_correct_witness :
    (check_consistency c4W =
      ((dictVals c4W.plot_threads).filter (fun p => p.status == "active" &&
        p.payoff_events.isEmpty)).map plotIssueMsg ∧
     (check_consistency c4W = [] ↔
      ∀ p ∈ dictVals c4W.plot_threads, p.status = "active" →
        p.payoff_events ≠ [])) ∧
    check_consistency c4W = ["伏線「王家の秘密」が未回収です"] :=
  ⟨check_consistency_correct c4W, by decide⟩

lemma filter_orderedInsert_year (a : TimelineEvent) (l : List TimelineEvent)
    (hl : List.Sorted yearLe l) (y : Int) :
    (List.orderedInsert yearLe a l).filter (fun x => x.year == y) =
      if a.year == y then a :: l.filter (fun x => x.year == y)
      else l.filter (fun x => x.year == y) := by
  induction l with
  | nil => simp [List.orderedInsert, List.filter_cons]
  | cons b t ih =>
    rw [List.orderedInsert]
    by_cases hab : yearLe a b
    · rw [if_pos hab]
      by_cases hay : (a.year == y) = true
      · rw [if_pos hay]
        simp only [List.filter_cons, hay, if_pos]
      · rw [if_neg hay]
        simp only [List.filter_cons, hay]
        rfl
    · rw [if_neg hab]
      have hblt : b.year < a.year := by
        unfold yearLe at hab; omega
      have hsorted : List.Sorted yearLe t := hl.of_cons
      by_cases hay : (a.year == y) = true
      · have hby : (b.year == y) = false := by
          have : a.year = y := by simpa using hay
          have : b.year ≠ y := by omega
          simpa using this
        rw [if_pos hay]
        simp only [List.filter_cons, hby]
        rw [ih hsorted, if_pos hay]
        rfl
      · rw [if_neg hay]
        simp only [List.filter_cons]
        rw [ih hsorted, if_neg hay]

lemma filter_insertionSort_year (l : List TimelineEvent) (y : Int) :
    (List.insertionSort yearLe l).filter (fun x => x.year == y) =
      l.filter (fun x => x.year == y) := by
  induction l with
  | nil => rfl
  | cons a t ih =>
    rw [List.insertionSort]
    rw [filter_orderedInsert_year a _ (List.sorted_insertionSort yearLe t) y]
    by_cases hay : (a.year == y) = true
    · rw [if_pos hay, ih]
      simp only [List.filter_cons, hay, if_pos]
    · rw [if_neg hay, ih]
      simp only [List.filter_cons, hay]
      rfl

/-- C9: the timeline endpoint returns a permutation of all stored events,
sorted by year ascending, with events of equal year kept in insertion
order (the per-year restriction of the output equals the per-year
restriction of the store). -/
theorem timeline_sorted_correct (w : WorldManager) :
    (get_timeline w).Perm (dictVals w.timeline) ∧
    List.Sorted yearLe (get_timeline w) ∧
    ∀ y : Int, (get_timeline w).filter (fun x => x.year == y) =
      (dictVals w.timeline).filter (fun x => x.year == y) := by
  exact ⟨List.perm_insertionSort yearLe _,
    List.sorted_insertionSort yearLe _,
    fun y => filter_insertionSort_year _ y⟩

def c9EvA : TimelineEvent := ⟨"event_1", "A", "d", 500, none, none, 2, [], [], []⟩

def c9EvB : TimelineEvent := ⟨"event_2", "B", "d", 100, none, none, 4, [], [], []⟩

def c9EvC : TimelineEvent := ⟨"event_3", "C", "d", 300, none, none, 5, [], [], []⟩

def c9W : WorldManager :=
  ⟨[], [("event_1", c9EvA), ("event_2", c9EvB), ("event_3", c9EvC)], []⟩

/-- C9 witness: the example from the spec — events inserted with years 500, 100,
300 come back ordered B(100), C(300), A(500). -/
theorem timeline_sorted_correct_witness :
    ((get_timeline c9W).Perm (dictVals c9W.timeline) ∧
     List.Sorted yearLe (get_timeline c9W) ∧
     ∀ y : Int, (get_timeline c9W).filter (fun x => x.year == y) =
       (dictVals c9W.timeline).filter (fun x => x.year == y)) ∧
    (get_timeline c9W).map TimelineEvent.name = ["B", "C", "A"] ∧
    (get_timeline c9W).map TimelineEvent.year = [100, 300, 500] :=
  ⟨timeline_sorted_correct c9W, by decide, by decide⟩

/-- C3: with no category filter, the world context output contains every
stored setting's name; every timeline event with importance ≥ 3 is
rendered (its `【year年】name` line appears in the text) and the rendered
events are ordered by year ascending; no event with importance < 3 is
rendered; and the rendered plot threads are exactly the threads with
status `"active"`, in collection iteration order (a sublist of the
store). -/
theorem world_context_correct (w : WorldManager) :
    (∀ s ∈ dictVals w.settings, strInfix s.name (get_world_context w none)) ∧
    (∀ e ∈ dictVals w.timeline, 3 ≤ e.importance →
      e ∈ importantEvents w ∧
      strInfix ("【" ++ Int.repr e.year ++ "年】" ++ e.name)
        (get_world_context w none)) ∧
    List.Sorted yearLe (importantEvents w) ∧
    (∀ e ∈ importantEvents w, 3 ≤ e.importance ∧ e ∈ dictVals w.timeline) ∧
    (∀ e : TimelineEvent, e.importance < 3 → e ∉ importantEvents w) ∧
    (activePlots w).Sublist (dictVals w.plot_threads) ∧
    (∀ p ∈ dictVals w.plot_threads, p.status = "active" →
      p ∈ activePlots w ∧
      strInfix ("【" ++ p.name ++ "】") (get_world_context w none)) ∧
    (∀ p ∈ activePlots w, p.status = "active" ∧
      p ∈ dictVals w.plot_threads) := by
  have hievents : ∀ e : TimelineEvent, e ∈ importantEvents w ↔
      e ∈ dictVals w.timeline ∧ 3 ≤ e.importance := by
    intro e
    unfold importantEvents
    rw [(List.perm_insertionSort yearLe _).mem_iff, List.mem_filter]
    simp
  refine ⟨?_, ?_, ?_, ?_, ?_, ?_, ?_, ?_⟩
  · intro s hs
    have hsf : s ∈ filteredSettings w none := by
      unfold filteredSettings
      simpa using hs
    have hline : ("【" ++ s.name ++ "】(" ++ s.type.value ++ ")") ∈
        worldContextParts w none := by
      apply List.mem_append.mpr; left
      apply List.mem_append.mpr; left
      apply List.mem_cons_of_mem
      exact List.mem_flatMap.mpr ⟨s, hsf, by simp [settingLines]⟩
    refine strInfix_trans ?_ (strInfix_pyJoin "\n" _ _ hline)
    exact strInfix_of_data s.name _ "【".data
      (("】(" ++ s.type.value ++ ")").data) (by simp [String.data_append])
  · intro e he himp
    have hmem : e ∈ importantEvents w := (hievents e).mpr ⟨he, himp⟩
    refine ⟨hmem, ?_⟩
    have hline : ("【" ++ Int.repr e.year ++ "年】" ++ e.name) ∈
        worldContextParts w none := by
      apply List.mem_append.mpr; left
      apply List.mem_append.mpr; right
      apply List.mem_cons_of_mem
      exact List.mem_flatMap.mpr ⟨e, hmem, by simp [eventLines]⟩
    exact strInfix_pyJoin "\n" _ _ hline
  · exact List.sorted_insertionSort yearLe _
  · intro e he
    have := (hievents e).mp he
    exact ⟨this.2, this.1⟩
  · intro e himp hmem
    have := (hievents e).mp hmem
    omega
  · exact List.filter_sublist _
  · intro p hp hact
    have hmem : p ∈ activePlots w := by
      unfold activePlots
      exact List.mem_filter.mpr ⟨hp, by simp [hact]⟩
    refine ⟨hmem, ?_⟩
    have hline : ("【" ++ p.name ++ "】") ∈ worldContextParts w none := by
      apply List.mem_append.mpr; right
      apply List.mem_cons_of_mem
      exact List.mem_flatMap.mpr ⟨p, hmem, by simp [plotLines]⟩
    exact strInfix_pyJoin "\n" _ _ hline
  · intro p hp
    have := List.mem_filter.mp hp
    exact ⟨by simpa using this.2, this.1⟩

def c3Setting : WorldSetting :=
  ⟨"setting_1", "魔法都市", .geography, "説明", [("人口", "百万")], [], "T", "T"⟩

def c3Plot : PlotThread := ⟨"plot_1", "伏線X", "d", [], [], "active", 1, []⟩

def c3W : WorldManager :=
  ⟨[("setting_1", c3Setting)],
   [("event_1", c9EvA), ("event_2", c9EvB), ("event_3", c9EvC)],
   [("plot_1", c3Plot)]⟩

/-- C3 witness: one setting, three events of importance 2/4/5 and one
active plot; the setting name, the two important events and the plot line
appear, the unimportant event is excluded. -/
theorem world_context_correct_witness :
    ((3 : Int) ≤ c9EvB.importance ∧ c9EvA.importance < 3 ∧
     c3Plot.status = "active") ∧
    strInfix "魔法都市" (get_world_context c3W none) ∧
    strInfix ("【" ++ Int.repr 100 ++ "年】" ++ "B") (get_world_context c3W none) ∧
    c9EvA ∉ importantEvents c3W ∧
    strInfix ("【" ++ "伏線X" ++ "】") (get_world_context c3W none) := by
  have h := world_context_correct c3W
  refine ⟨⟨by decide, by decide, rfl⟩, ?_, ?_, ?_, ?_⟩
  · exact h.1 c3Setting (by decide)
  · exact (h.2.1 c9EvB (by decide) (by decide)).2
  · exact h.2.2.2.2.1 c9EvA (by decide)
  · exact (h.2.2.2.2.2.2.1 c3Plot (by decide) rfl).2

/-- A character profile as stored by `CharacterMemoryManager.add_character`
(the fields read by `get_character_memory_string`; the remaining
bookkeeping fields never influence the rendered block). -/
structure CharProfile where
  description : String
  traits : List String
  background : String
  relationships : List (String × String)
deriving DecidableEq, Repr

/-- The sentinel string returned when no character information applies. -/
def noCharInfo : String := "キャラクター情報なし"

/-- The block rendered for one stored character. -/
def charBlock (name : String) (c : CharProfile) : String :=
  "【" ++ name ++ "】\n" ++ "説明: " ++ c.description ++ "\n"
  ++ (if c.traits.isEmpty then "" else "特徴: " ++ pyJoin ", " c.traits ++ "\n")
  ++ (if c.background = "" then "" else "背景: " ++ c.background ++ "\n")
  ++ (if c.relationships.isEmpty then ""
      else "関係性: " ++
        pyJoin ", " (c.relationships.map (fun kv => kv.1 ++ ": " ++ kv.2)) ++ "\n")

/-- The `memory_parts` list built by `get_character_memory_string`. -/
def memoryParts (chars : List (String × CharProfile)) (names : List String) :
    List String :=
  names.foldl (fun acc n =>
    match chars.lookup n with
    | some c => acc ++ [charBlock n c]
    | none => acc) []

/-- Model of `CharacterMemoryManager.get_character_memory_string`; `names = none`
models the `character_names=None` default (Python `if not character_names`
treats both `None` and `[]` as absent). -/
def get_character_memory_string (chars : List (String × CharProfile))
    (names : Option (List String)) : String :=
  match names with
  | none => noCharInfo
  | some ns =>
    if ns.isEmpty then noCharInfo
    else if (memoryParts chars ns).isEmpty then noCharInfo
    else pyJoin "\n" (memoryParts chars ns)

/-- The request body of `/generate/advanced`. -/
structure AdvancedGenerationRequest where
  prompt : String
  story_id : Option String
  chapter_number : Option Int
  scene_index : Option Int
  use_world_context : Bool
  use_character_memory : Bool
deriving DecidableEq, Repr

/-- The story-related context blocks of `/generate/advanced`; `none` models
the uncaught `KeyError` from `get_current_chapter_context` when a chapter
number is supplied for a story id absent from the store.  Python
truthiness: an empty-string `story_id` and a zero `chapter_number` are
falsy and skip their blocks. -/
def storyBlockParts (sm : StoryManager) (req : AdvancedGenerationRequest) :
    Option (List String) :=
  match req.story_id with
  | none => some []
  | some sid =>
    if sid = "" then some []
    else
      let sp := if get_story_context sm sid ≠ "" then
        [get_story_context sm sid] else []
      match req.chapter_number with
      | none => some sp
      | some cn =>
        if cn = 0 then some sp
        else
          match get_current_chapter_context sm sid with
          | none => none
          | some cc => some (sp ++ (if cc ≠ "" then [cc] else []))

/-- The `context_parts` assembled by `/generate/advanced`: optional world
context, then story context blocks, then (if the sentinel comparison
passes) the character block.  The endpoint calls
`get_character_memory_string()` with no argument. -/
def advancedPromptParts (w : WorldManager) (sm : StoryManager)
    (chars : List (String × CharProfile)) (req : AdvancedGenerationRequest) :
    Option (List String) :=
  (storyBlockParts sm req).map (fun sp =>
    (if req.use_world_context then
       if get_world_context w none ≠ "" then [get_world_context w none] else []
     else [])
    ++ sp
    ++ (if req.use_character_memory then
          if get_character_memory_string chars none ≠ noCharInfo then
            ["=== キャラクター情報 ===\n" ++ get_character_memory_string chars none]
          else []
        else []))

/-- The final prompt f-string of `/generate/advanced`. -/
def advanced_generate_prompt (w : WorldManager) (sm : StoryManager)
    (chars : List (String × CharProfile)) (req : AdvancedGenerationRequest) :
    Option String :=
  (advancedPromptParts w sm chars req).map (fun parts =>
    "\n" ++ pyJoin "\n\n" parts ++ "\n\n=== 執筆指示 ===\n" ++ req.prompt ++
    "\n\n上記の世界観、物語設定、キャラクター情報を踏まえて、一貫性のある内容を生成してください。\n")

lemma memoryParts_foldl (chars : List (String × CharProfile))
    (ns : List String) (init : List String) :
    ns.foldl (fun acc n =>
      match chars.lookup n with
      | some c => acc ++ [charBlock n c]
      | none => acc) init =
    init ++ ns.filterMap (fun n => (chars.lookup n).map (charBlock n)) := by
  induction ns generalizing init with
  | nil => simp
  | cons n t ih =>
    cases h : chars.lookup n with
    | none => simp [h, ih, List.filterMap_cons]
    | some c => simp [h, ih, List.filterMap_cons, List.append_assoc]

lemma memoryParts_filterMap (chars : List (String × CharProfile))
    (ns : List String) :
    memoryParts chars ns =
      ns.filterMap (fun n => (chars.lookup n).map (charBlock n)) := by
  unfold memoryParts
  rw [memoryParts_foldl]
  simp

lemma charBlock_head (name : String) (c : CharProfile) :
    (charBlock name c).data.head? = some '【' := by
  have h1 : ("【" : String).data = ['【'] := rfl
  simp [charBlock, String.data_append, h1]

lemma pyJoin_head (sep : String) (x : String) (xs : List String) :
    ∃ rest : List Char, (pyJoin sep (x :: xs)).data = x.data ++ rest := by
  cases xs with
  | nil => exact ⟨[], by simp [pyJoin]⟩
  | cons y t =>
    exact ⟨(sep ++ pyJoin sep (y :: t)).data, by simp [pyJoin, String.data_append]⟩

lemma join_blocks_ne_sentinel (parts : List String) (hne : parts ≠ [])
    (hhead : ∀ p ∈ parts, p.data.head? = some '【') :
    pyJoin "\n" parts ≠ noCharInfo := by
  cases parts with
  | nil => exact absurd rfl hne
  | cons x xs =>
    obtain ⟨rest, hdata⟩ := pyJoin_head "\n" x xs
    intro he
    have hd := congrArg String.data he
    rw [hdata] at hd
    have hx := hhead x (by simp)
    cases hxd : x.data with
    | nil => rw [hxd] at hx; simp at hx
    | cons c cs =>
      rw [hxd] at hx hd
      simp only [List.head?_cons, Option.some.injEq] at hx
      have hk := congrArg List.head? hd
      rw [hx] at hk
      simp [noCharInfo] at hk

lemma gcms_eq_sentinel_iff (chars : List (String × CharProfile))
    (ns : List String) :
    get_character_memory_string chars (some ns) = noCharInfo ↔
      (ns = [] ∨ ∀ n ∈ ns, chars.lookup n = none) := by
  simp only [get_character_memory_string]
  by_cases hns : ns.isEmpty
  · simp [hns, List.isEmpty_iff.mp hns]
  · rw [if_neg hns]
    by_cases hempty : (memoryParts chars ns).isEmpty
    · rw [if_pos hempty]
      simp only [true_iff]
      right
      intro n hn
      rw [List.isEmpty_iff, memoryParts_filterMap, List.filterMap_eq_nil_iff] at hempty
      have := hempty n hn
      cases hl : chars.lookup n with
      | none => rfl
      | some c => rw [hl] at this; simp at this
    · rw [if_neg hempty]
      constructor
      · intro he
        exfalso
        refine join_blocks_ne_sentinel (memoryParts chars ns)
          (fun hnil => hempty (List.isEmpty_iff.mpr hnil)) ?_ he
        intro p hp
        rw [memoryParts_filterMap] at hp
        rcases List.mem_filterMap.mp hp with ⟨n, _, hmap⟩
        cases hl : chars.lookup n with
        | none => rw [hl] at hmap; simp at hmap
        | some c =>
          rw [hl] at hmap
          simp only [Option.map_some', Option.some.injEq] at hmap
          rw [← hmap]
          exact charBlock_head n c
      · intro hor
        exfalso
        rcases hor with h | h
        · rw [h] at hns; simp at hns
        · apply hempty
          rw [List.isEmpty_iff, memoryParts_filterMap,
            List.filterMap_eq_nil_iff]
          intro n hn
          simp [h n hn]

/-- C5: `get_character_memory_string` returns the sentinel exactly when the
name list is empty/absent or no requested name is stored, and otherwise one
block per stored requested name; the advanced-generation prompt assembly
never contributes a character block when `use_character_memory` is set (the
endpoint calls the function with no names, so the sentinel comparison
always removes the block — in particular when no matching names are
stored), while the world-context block is still included whenever it is
non-empty. -/
theorem character_memory_prompt_correct
    (chars : List (String × CharProfile)) (ns : List String)
    (w : WorldManager) (sm : StoryManager)
    (req : AdvancedGenerationRequest)
    (hmem : req.use_character_memory = true) :
    (get_character_memory_string chars (some ns) = noCharInfo ↔
      (ns = [] ∨ ∀ n ∈ ns, chars.lookup n = none)) ∧
    (get_character_memory_string chars none = noCharInfo) ∧
    (memoryParts chars ns =
      ns.filterMap (fun n => (chars.lookup n).map (charBlock n))) ∧
    (ns ≠ [] → memoryParts chars ns ≠ [] →
      get_character_memory_string chars (some ns) =
        pyJoin "\n" (memoryParts chars ns)) ∧
    (advancedPromptParts w sm chars req =
      advancedPromptParts w sm chars
        { req with use_character_memory := false }) ∧
    (req.use_world_context = true → get_world_context w none ≠ "" →
      ∀ parts, advancedPromptParts w sm chars req = some parts →
        get_world_context w none ∈ parts) := by
  have hchar : get_character_memory_string chars none = noCharInfo := rfl
  refine ⟨gcms_eq_sentinel_iff chars ns, hchar, memoryParts_filterMap chars ns,
    ?_, ?_, ?_⟩
  · intro hn hp
    simp only [get_character_memory_string]
    rw [if_neg (by simpa [List.isEmpty_iff] using hn),
      if_neg (by simpa [List.isEmpty_iff] using hp)]
  · have hsb : storyBlockParts sm { req with use_character_memory := false } =
        storyBlockParts sm req := by
      cases req
      rfl
    unfold advancedPromptParts
    rw [hsb]
    cases storyBlockParts sm req with
    | none => rfl
    | some sp =>
      simp only [Option.map_some', Option.some.injEq]
      rw [hchar]
      simp
  · intro hw hne parts hp
    unfold advancedPromptParts at hp
    cases hsb : storyBlockParts sm req with
    | none => rw [hsb] at hp; simp at hp
    | some sp =>
      rw [hsb] at hp
      simp only [Option.map_some', Option.some.injEq] at hp
      rw [← hp]
      simp [hw, hne]

def c5Req : AdvancedGenerationRequest :=
  ⟨"続きを書いてください", none, none, none, true, true⟩

/-- C5 witness: the scenario from the spec — `use_world_context` and
`use_character_memory` both true, no characters stored; the prompt parts
contain the (non-empty) world context and nothing else. -/
theorem character_memory_prompt_correct_witness :
    (c5Req.use_character_memory = true) ∧
    ((get_character_memory_string [] (some ["アリス"]) = noCharInfo ↔
       (["アリス"] = [] ∨ ∀ n ∈ ["アリス"], ([] : List (String × CharProfile)).lookup n = none)) ∧
     (get_character_memory_string ([] : List (String × CharProfile)) none = noCharInfo) ∧
     (memoryParts [] ["アリス"] =
       (["アリス"]).filterMap (fun n => (([] : List (String × CharProfile)).lookup n).map (charBlock n))) ∧
     ((["アリス"] : List String) ≠ [] → memoryParts [] ["アリス"] ≠ [] →
       get_character_memory_string [] (some ["アリス"]) =
         pyJoin "\n" (memoryParts [] ["アリス"])) ∧
     (advancedPromptParts c3W ⟨[], none⟩ [] c5Req =
       advancedPromptParts c3W ⟨[], none⟩ []
         { c5Req with use_character_memory := false }) ∧
     (c5Req.use_world_context = true → get_world_context c3W none ≠ "" →
       ∀ parts, advancedPromptParts c3W ⟨[], none⟩ [] c5Req = some parts →
         get_world_context c3W none ∈ parts)) ∧
    advancedPromptParts c3W ⟨[], none⟩ [] c5Req =
      some [get_world_context c3W none] :=
  ⟨rfl,
   character_memory_prompt_correct [] ["アリス"] c3W ⟨[], none⟩ c5Req rfl,
   by decide⟩

/-- Python values as seen by `dataclasses.asdict` and the `json` module:
JSON-shaped data plus the two enum types, which `asdict` leaves untouched
and `json.dump` cannot serialize. -/
inductive PyVal where
| pnull
| pbool (b : Bool)
| pint (n : Int)
| pstr (s : String)
| plist (l : List PyVal)
| pdict (l : List (String × PyVal))
| penumStatus (c : ChapterStatus)
| penumType (t : SettingType)

mutual

/-- Model of `json.dump`: succeeds on JSON-shaped values (returning them verbatim,
since loading the written text parses back to the same value); raises
`TypeError` — modelled as `none` — on an enum anywhere inside. -/
def jdump : PyVal → Option PyVal
| .pnull => some .pnull
| .pbool b => some (.pbool b)
| .pint n => some (.pint n)
| .pstr s => some (.pstr s)
| .penumStatus _ => none
| .penumType _ => none
| .plist l => (jdumpList l).map .plist
| .pdict l => (jdumpKVs l).map .pdict

/-- Model of `json.dump` on a list of values. -/
def jdumpList : List PyVal → Option (List PyVal)
| [] => some []
| x :: xs =>
  match jdump x, jdumpList xs with
  | some v, some vs => some (v :: vs)
  | _, _ => none

/-- Model of `json.dump` on the entries of a dict. -/
def jdumpKVs : List (String × PyVal) → Option (List (String × PyVal))
| [] => some []
| (k, v) :: xs =>
  match jdump v, jdumpKVs xs with
  | some w, some ws => some ((k, w) :: ws)
  | _, _ => none

end

/-- Model of `dataclasses.asdict` of a `Scene` (field order is declaration
order). -/
def Scene.asdict (s : Scene) : PyVal :=
  .pdict [("id", .pstr s.id), ("name", .pstr s.name),
    ("description", .pstr s.description), ("location", .pstr s.location),
    ("characters", .plist (s.characters.map .pstr)),
    ("purpose", .pstr s.purpose), ("content", .pstr s.content),
    ("word_count", .pint s.word_count),
    ("notes", .pstr s.notes),
    ("plot_threads", .plist (s.plot_threads.map .pstr))]

/-- Model of `dataclasses.asdict` of a `Chapter`: the `status` value is the enum
itself (`asdict` does not convert enums). -/
def Chapter.asdict (c : Chapter) : PyVal :=
  .pdict [("id", .pstr c.id), ("number", .pint c.number),
    ("title", .pstr c.title), ("summary", .pstr c.summary),
    ("scenes", .plist (c.scenes.map Scene.asdict)),
    ("status", .penumStatus c.status),
    ("target_word_count", .pint c.target_word_count),
    ("actual_word_count", .pint c.actual_word_count),
    ("notes", .pstr c.notes),
    ("created_at", .pstr c.created_at), ("updated_at", .pstr c.updated_at)]

/-- Model of `dataclasses.asdict` of a `Story`. -/
def Story.asdict (st : Story) : PyVal :=
  .pdict [("id", .pstr st.id), ("title", .pstr st.title),
    ("genre", .pstr st.genre), ("summary", .pstr st.summary),
    ("chapters", .plist (st.chapters.map Chapter.asdict)),
    ("target_word_count", .pint st.target_word_count),
    ("current_word_count", .pint st.current_word_count),
    ("status", .pstr st.status),
    ("created_at", .pstr st.created_at), ("updated_at", .pstr st.updated_at)]

/-- The status assignment of `save_stories` (each chapter dict gets its
status replaced by the enum member value); `none` models the
`AttributeError` raised when the value is not the enum. -/
def convertChapterStatus : PyVal → Option PyVal
| .pdict kvs =>
  (kvs.mapM (fun kv =>
    if kv.1 = "status" then
      match kv.2 with
      | .penumStatus c => some (("status", PyVal.pstr c.value))
      | _ => none
    else some kv)).map .pdict
| _ => none

/-- The per-story conversion loop of `save_stories`, rewriting every
chapter dict of the story dict. -/
def convertStoryDict : PyVal → Option PyVal
| .pdict kvs =>
  (kvs.mapM (fun kv =>
    if kv.1 = "chapters" then
      match kv.2 with
      | .plist chs =>
        (chs.mapM convertChapterStatus).map (fun l => ("chapters", PyVal.plist l))
      | _ => none
    else some kv)).map .pdict
| _ => none

/-- Model of `StoryManager.save_stories`: `asdict` each story, convert the chapter
status enums to their string values, `json.dump` the whole map.  `none`
models the caught exception path (the error is printed and the file is
left unwritten). -/
def save_stories (stories : List (String × Story)) : Option PyVal := do
  let entries ← stories.mapM (fun kv =>
    (convertStoryDict (Story.asdict kv.2)).map (fun d => (kv.1, d)))
  jdump (.pdict entries)

/-- A string-typed value (`TypeError` otherwise where Python would
require one). -/
def asStr : PyVal → Option String
| .pstr s => some s
| _ => none

/-- An integer value. -/
def asIntVal : PyVal → Option Int
| .pint n => some n
| _ => none

/-- A non-negative integer field: the model types word counts and chapter
numbers as `Nat`, which every state produced by the managers satisfies
(Python itself would accept any int here). -/
def asNatVal : PyVal → Option Nat
| .pint n => if 0 ≤ n then some n.toNat else none
| _ => none

/-- A list of strings. -/
def asStrList : PyVal → Option (List String)
| .plist l => l.mapM asStr
| _ => none

/-- A dict of string values (the model of the open detail/relationship
maps). -/
def asStrPairs : PyVal → Option (List (String × String))
| .pdict kvs => kvs.mapM (fun kv => (asStr kv.2).map (fun v => (kv.1, v)))
| _ => none

/-- Optional string field with a dataclass default. -/
def optStr (kvs : List (String × PyVal)) (k : String) (dflt : String) :
    Option String :=
  match kvs.lookup k with
  | none => some dflt
  | some v => asStr v

/-- Optional non-negative integer field with a default. -/
def optNat (kvs : List (String × PyVal)) (k : String) (dflt : Nat) :
    Option Nat :=
  match kvs.lookup k with
  | none => some dflt
  | some v => asNatVal v

/-- Optional integer field with a default. -/
def optInt (kvs : List (String × PyVal)) (k : String) (dflt : Int) :
    Option Int :=
  match kvs.lookup k with
  | none => some dflt
  | some v => asIntVal v

/-- A list-of-strings field whose dataclass default is `None`
(normalised to `[]` by `__post_init__`). -/
def optStrListOrNone (kvs : List (String × PyVal)) (k : String) :
    Option (List String) :=
  match kvs.lookup k with
  | none => some []
  | some .pnull => some []
  | some v => asStrList v

/-- An `Optional[int]` field defaulting to `None`. -/
def optIntOrNone (kvs : List (String × PyVal)) (k : String) :
    Option (Option Int) :=
  match kvs.lookup k with
  | none => some none
  | some .pnull => some none
  | some (.pint n) => some (some n)
  | some _ => none

def sceneFields : List String :=
  ["id", "name", "description", "location", "characters", "purpose",
   "content", "word_count", "notes", "plot_threads"]

/-- Model of the Scene keyword construction on a parsed JSON dict, with
`__post_init__` applied; `none` models a raised `TypeError` (unknown
keyword, missing required field or wrongly-typed value). -/
def sceneFromDict : PyVal → Option Scene
| .pdict kvs =>
  if kvs.all (fun kv => sceneFields.contains kv.1) then do
    let id ← (kvs.lookup "id").bind asStr
    let name ← (kvs.lookup "name").bind asStr
    let description ← (kvs.lookup "description").bind asStr
    let location ← (kvs.lookup "location").bind asStr
    let characters ← (kvs.lookup "characters").bind asStrList
    let purpose ← (kvs.lookup "purpose").bind asStr
    let content ← optStr kvs "content" ""
    let word_count ← optNat kvs "word_count" 0
    let notes ← optStr kvs "notes" ""
    let plot_threads ← optStrListOrNone kvs "plot_threads"
    some (mkScene id name description location characters purpose content
      word_count notes plot_threads)
  else none
| _ => none

def chapterFields : List String :=
  ["id", "number", "title", "summary", "scenes", "status",
   "target_word_count", "actual_word_count", "notes", "created_at",
   "updated_at"]

/-- The per-chapter reconstruction of `_load_stories`: parse the scene
dicts (a missing key defaults to the empty list), parse the status string into the enum
(`ValueError` on an unrecognized value), then the Chapter keyword
construction with `__post_init__` recomputing `actual_word_count`.  A missing or null
timestamp would be filled from the wall clock; the saved files always
carry the strings, so the model requires them. -/
def chapterFromDict : PyVal → Option Chapter
| .pdict kvs =>
  if kvs.all (fun kv => chapterFields.contains kv.1) then do
    let scenes ← (match kvs.lookup "scenes" with
      | none => some []
      | some (.plist l) => l.mapM sceneFromDict
      | some _ => none)
    let statusStr ← (kvs.lookup "status").bind asStr
    let status ← ChapterStatus.ofString statusStr
    let id ← (kvs.lookup "id").bind asStr
    let number ← (kvs.lookup "number").bind asNatVal
    let title ← (kvs.lookup "title").bind asStr
    let summary ← (kvs.lookup "summary").bind asStr
    let target ← optNat kvs "target_word_count" 3000
    let actualIgnored ← optNat kvs "actual_word_count" 0
    let notes ← optStr kvs "notes" ""
    let created ← (kvs.lookup "created_at").bind asStr
    let updated ← (kvs.lookup "updated_at").bind asStr
    some { id, number, title, summary, scenes, status,
           target_word_count := target,
           actual_word_count := (fun _ => sceneSum scenes) actualIgnored,
           notes, created_at := created, updated_at := updated }
  else none
| _ => none

def storyFields : List String :=
  ["id", "title", "genre", "summary", "chapters", "target_word_count",
   "current_word_count", "status", "created_at", "updated_at"]

/-- Model of the Story keyword construction (after the chapter list is
rebuilt), with `__post_init__` recomputing `current_word_count`. -/
def storyFromDict : PyVal → Option Story
| .pdict kvs =>
  if kvs.all (fun kv => storyFields.contains kv.1) then do
    let chapters ← (match kvs.lookup "chapters" with
      | none => some []
      | some (.plist l) => l.mapM chapterFromDict
      | some _ => none)
    let id ← (kvs.lookup "id").bind asStr
    let title ← (kvs.lookup "title").bind asStr
    let genre ← (kvs.lookup "genre").bind asStr
    let summary ← (kvs.lookup "summary").bind asStr
    let target ← optNat kvs "target_word_count" 50000
    let currentIgnored ← optNat kvs "current_word_count" 0
    let status ← optStr kvs "status" "planning"
    let created ← (kvs.lookup "created_at").bind asStr
    let updated ← (kvs.lookup "updated_at").bind asStr
    some { id, title, genre, summary, chapters,
           target_word_count := target,
           current_word_count := (fun _ => chapterSum chapters) currentIgnored,
           status, created_at := created, updated_at := updated }
  else none
| _ => none

/-- Model of `StoryManager._load_stories`: the whole reconstruction loop runs
inside one `try`; any failure prints an error and returns the EMPTY store
(entities are not dropped individually). -/
def load_stories (doc : PyVal) : List (String × Story) :=
  match doc with
  | .pdict kvs =>
    (kvs.mapM (fun kv => (storyFromDict kv.2).map (fun st => (kv.1, st)))).getD []
  | _ => []

/-- Model of `dataclasses.asdict` of a `WorldSetting`: the `type` value stays the
`SettingType` enum (no conversion anywhere in `save_all`). -/
def WorldSetting.asdict (s : WorldSetting) : PyVal :=
  .pdict [("id", .pstr s.id), ("name", .pstr s.name),
    ("type", .penumType s.type),
    ("description", .pstr s.description),
    ("details", .pdict (s.details.map (fun kv => (kv.1, PyVal.pstr kv.2)))),
    ("related_settings", .plist (s.related_settings.map .pstr)),
    ("created_at", .pstr s.created_at), ("updated_at", .pstr s.updated_at)]

/-- The settings branch of `WorldManager.save_all` (`json.dump` of the
`asdict` map; there is no try/except, the exception propagates). -/
def save_settings (settings : List (String × WorldSetting)) : Option PyVal :=
  jdump (.pdict (settings.map (fun kv => (kv.1, kv.2.asdict))))

/-- Model of `dataclasses.asdict` of a `TimelineEvent`. -/
def TimelineEvent.asdict (e : TimelineEvent) : PyVal :=
  .pdict [("id", .pstr e.id), ("name", .pstr e.name),
    ("description", .pstr e.description), ("year", .pint e.year),
    ("month", match e.month with | none => .pnull | some n => .pint n),
    ("day", match e.day with | none => .pnull | some n => .pint n),
    ("importance", .pint e.importance),
    ("related_characters", .plist (e.related_characters.map .pstr)),
    ("related_settings", .plist (e.related_settings.map .pstr)),
    ("consequences", .plist (e.consequences.map .pstr))]

/-- The timeline branch of `WorldManager.save_all`. -/
def save_timeline (tl : List (String × TimelineEvent)) : Option PyVal :=
  jdump (.pdict (tl.map (fun kv => (kv.1, kv.2.asdict))))

/-- Model of `dataclasses.asdict` of a `PlotThread`. -/
def PlotThread.asdict (p : PlotThread) : PyVal :=
  .pdict [("id", .pstr p.id), ("name", .pstr p.name),
    ("description", .pstr p.description),
    ("setup_events", .plist (p.setup_events.map .pstr)),
    ("payoff_events", .plist (p.payoff_events.map .pstr)),
    ("status", .pstr p.status),
    ("importance", .pint p.importance),
    ("related_characters", .plist (p.related_characters.map .pstr))]

/-- The plot-thread branch of `WorldManager.save_all`. -/
def save_plots (plots : List (String × PlotThread)) : Option PyVal :=
  jdump (.pdict (plots.map (fun kv => (kv.1, kv.2.asdict))))

def eventFields : List String :=
  ["id", "name", "description", "year", "month", "day", "importance",
   "related_characters", "related_settings", "consequences"]

/-- Model of the TimelineEvent keyword construction on a parsed JSON
dict, with `__post_init__`. -/
def eventFromDict : PyVal → Option TimelineEvent
| .pdict kvs =>
  if kvs.all (fun kv => eventFields.contains kv.1) then do
    let id ← (kvs.lookup "id").bind asStr
    let name ← (kvs.lookup "name").bind asStr
    let description ← (kvs.lookup "description").bind asStr
    let year ← (kvs.lookup "year").bind asIntVal
    let month ← optIntOrNone kvs "month"
    let day ← optIntOrNone kvs "day"
    let importance ← optInt kvs "importance" 1
    let related_characters ← optStrListOrNone kvs "related_characters"
    let related_settings ← optStrListOrNone kvs "related_settings"
    let consequences ← optStrListOrNone kvs "consequences"
    some { id, name, description, year, month, day, importance,
           related_characters, related_settings, consequences }
  else none
| _ => none

/-- Model of `WorldManager._load_timeline` (its own try/except: any failure yields
the empty store). -/
def load_timeline (doc : PyVal) : List (String × TimelineEvent) :=
  match doc with
  | .pdict kvs =>
    (kvs.mapM (fun kv => (eventFromDict kv.2).map (fun e => (kv.1, e)))).getD []
  | _ => []

def plotFields : List String :=
  ["id", "name", "description", "setup_events", "payoff_events", "status",
   "importance", "related_characters"]

/-- Model of the PlotThread keyword construction on a parsed JSON dict,
with `__post_init__`.  The `status` string is NOT validated against the
active/resolved/abandoned set. -/
def plotFromDict : PyVal → Option PlotThread
| .pdict kvs =>
  if kvs.all (fun kv => plotFields.contains kv.1) then do
    let id ← (kvs.lookup "id").bind asStr
    let name ← (kvs.lookup "name").bind asStr
    let description ← (kvs.lookup "description").bind asStr
    let setup_events ← (kvs.lookup "setup_events").bind asStrList
    let payoff_events ← (kvs.lookup "payoff_events").bind asStrList
    let status ← optStr kvs "status" "active"
    let importance ← optInt kvs "importance" 1
    let related_characters ← optStrListOrNone kvs "related_characters"
    some { id, name, description, setup_events, payoff_events, status,
           importance, related_characters }
  else none
| _ => none

/-- Model of `WorldManager._load_plot_threads`. -/
def load_plots (doc : PyVal) : List (String × PlotThread) :=
  match doc with
  | .pdict kvs =>
    (kvs.mapM (fun kv => (plotFromDict kv.2).map (fun p => (kv.1, p)))).getD []
  | _ => []

/-- What `_load_settings` actually reconstructs: the keyword construction
performs NO enum parsing — the stored `type` string is kept verbatim (and
an unrecognized string is accepted, not rejected). -/
structure RawWorldSetting where
  id : String
  name : String
  type : String
  description : String
  details : List (String × String)
  related_settings : List String
  created_at : String
  updated_at : String
deriving DecidableEq, Repr

def settingFields : List String :=
  ["id", "name", "type", "description", "details", "related_settings",
   "created_at", "updated_at"]

/-- Model of the WorldSetting keyword construction on a parsed JSON dict
(timestamps required as for chapters). -/
def settingFromDict : PyVal → Option RawWorldSetting
| .pdict kvs =>
  if kvs.all (fun kv => settingFields.contains kv.1) then do
    let id ← (kvs.lookup "id").bind asStr
    let name ← (kvs.lookup "name").bind asStr
    let type ← (kvs.lookup "type").bind asStr
    let description ← (kvs.lookup "description").bind asStr
    let details ← (kvs.lookup "details").bind asStrPairs
    let related_settings ← optStrListOrNone kvs "related_settings"
    let created ← (kvs.lookup "created_at").bind asStr
    let updated ← (kvs.lookup "updated_at").bind asStr
    some { id, name, type, description, details, related_settings,
           created_at := created, updated_at := updated }
  else none
| _ => none

/-- Model of `WorldManager._load_settings`. -/
def load_settings (doc : PyVal) : List (String × RawWorldSetting) :=
  match doc with
  | .pdict kvs =>
    (kvs.mapM (fun kv => (settingFromDict kv.2).map (fun s => (kv.1, s)))).getD []
  | _ => []

/-- Model of `CharacterMemoryManager._save_memory`: wrap the raw characters dict
with a `last_updated` stamp and `json.dump` it. -/
def save_memory (chars : PyVal) (ts : String) : Option PyVal :=
  jdump (.pdict [("characters", chars), ("last_updated", .pstr ts)])

/-- Model of `CharacterMemoryManager._load_memory`: read the characters
entry of the document, defaulting to the empty dict; any failure yields
the empty store. -/
def load_memory (doc : PyVal) : PyVal :=
  match doc with
  | .pdict kvs => (kvs.lookup "characters").getD (.pdict [])
  | _ => .pdict []

lemma mapM_some_of_forall {α β} (f : α → Option β) (g : α → β) (l : List α)
    (h : ∀ a ∈ l, f a = some (g a)) : l.mapM f = some (l.map g) := by
  induction l with
  | nil => rfl
  | cons x xs ih =>
    rw [List.mapM_cons, h x (by simp), ih (fun a ha => h a (by simp [ha]))]
    rfl

lemma mapM_map_some {α β γ} (f : β → Option γ) (m : α → β) (g : α → γ)
    (l : List α) (h : ∀ a ∈ l, f (m a) = some (g a)) :
    (l.map m).mapM f = some (l.map g) := by
  induction l with
  | nil => rfl
  | cons x xs ih =>
    rw [List.map_cons, List.mapM_cons, h x (by simp),
      ih (fun a ha => h a (by simp [ha]))]
    rfl

lemma mapM_eq_none_of_mem {α β} (f : α → Option β) (l : List α) (a : α)
    (ha : a ∈ l) (hf : f a = none) : l.mapM f = none := by
  induction l with
  | nil => simp at ha
  | cons x xs ih =>
    rw [List.mapM_cons]
    rcases List.mem_cons.mp ha with h | h
    · subst h; rw [hf]; rfl
    · cases hx : f x with
      | none => rfl
      | some v => rw [ih h]; rfl

lemma jdump_pstr (s : String) : jdump (.pstr s) = some (.pstr s) := by
  simp [jdump]

lemma jdump_pint (n : Int) : jdump (.pint n) = some (.pint n) := by
  simp [jdump]

lemma jdump_pnull : jdump .pnull = some .pnull := by
  simp [jdump]

lemma jdumpList_nil : jdumpList [] = some [] := by
  simp [jdumpList]

lemma jdumpKVs_nil : jdumpKVs [] = some [] := by
  simp [jdumpKVs]

lemma jdumpList_cons_some (x : PyVal) (xs : List PyVal)
    (hx : jdump x = some x) (hxs : jdumpList xs = some xs) :
    jdumpList (x :: xs) = some (x :: xs) := by
  simp [jdumpList, hx, hxs]

lemma jdumpKVs_cons_some (k : String) (v : PyVal)
    (xs : List (String × PyVal)) (hv : jdump v = some v)
    (hxs : jdumpKVs xs = some xs) :
    jdumpKVs ((k, v) :: xs) = some ((k, v) :: xs) := by
  simp [jdumpKVs, hv, hxs]

lemma jdump_pdict_some (kvs : List (String × PyVal))
    (h : jdumpKVs kvs = some kvs) :
    jdump (.pdict kvs) = some (.pdict kvs) := by
  simp [jdump, h]

lemma jdump_plist_some (l : List PyVal) (h : jdumpList l = some l) :
    jdump (.plist l) = some (.plist l) := by
  simp [jdump, h]

lemma jdumpList_of_forall (l : List PyVal) (h : ∀ v ∈ l, jdump v = some v) :
    jdumpList l = some l := by
  induction l with
  | nil => exact jdumpList_nil
  | cons x xs ih =>
    exact jdumpList_cons_some x xs (h x (by simp))
      (ih fun v hv => h v (by simp [hv]))

lemma jdumpKVs_of_forall (kvs : List (String × PyVal))
    (h : ∀ kv ∈ kvs, jdump kv.2 = some kv.2) : jdumpKVs kvs = some kvs := by
  induction kvs with
  | nil => exact jdumpKVs_nil
  | cons kv xs ih =>
    obtain ⟨k, v⟩ := kv
    exact jdumpKVs_cons_some k v xs (h (k, v) (by simp))
      (ih fun q hq => h q (by simp [hq]))

lemma jdumpKVs_none_of_mem (kvs : List (String × PyVal))
    (kv : String × PyVal) (hm : kv ∈ kvs) (h : jdump kv.2 = none) :
    jdumpKVs kvs = none := by
  induction kvs with
  | nil => simp at hm
  | cons q xs ih =>
    obtain ⟨k, v⟩ := q
    rcases List.mem_cons.mp hm with he | he
    · rw [he] at h
      simp [jdumpKVs, h]
    · cases hv : jdump v <;> simp [jdumpKVs, hv, ih he]

lemma jdump_strList (l : List String) :
    jdumpList (l.map .pstr) = some (l.map .pstr) := by
  refine jdumpList_of_forall _ ?_
  intro v hv
  rcases List.mem_map.mp hv with ⟨s, _, rfl⟩
  exact jdump_pstr s

lemma jdump_strPairs (l : List (String × String)) :
    jdumpKVs (l.map (fun kv => (kv.1, PyVal.pstr kv.2))) =
      some (l.map (fun kv => (kv.1, PyVal.pstr kv.2))) := by
  refine jdumpKVs_of_forall _ ?_
  intro kv hkv
  rcases List.mem_map.mp hkv with ⟨p, _, rfl⟩
  exact jdump_pstr _

lemma jdump_scene_asdict (s : Scene) : jdump s.asdict = some s.asdict := by
  unfold Scene.asdict
  exact jdump_pdict_some _ (jdumpKVs_cons_some _ _ _ (jdump_pstr _)
    (jdumpKVs_cons_some _ _ _ (jdump_pstr _)
    (jdumpKVs_cons_some _ _ _ (jdump_pstr _)
    (jdumpKVs_cons_some _ _ _ (jdump_pstr _)
    (jdumpKVs_cons_some _ _ _ (jdump_plist_some _ (jdump_strList _))
    (jdumpKVs_cons_some _ _ _ (jdump_pstr _)
    (jdumpKVs_cons_some _ _ _ (jdump_pstr _)
    (jdumpKVs_cons_some _ _ _ (jdump_pint _)
    (jdumpKVs_cons_some _ _ _ (jdump_pstr _)
    (jdumpKVs_cons_some _ _ _ (jdump_plist_some _ (jdump_strList _))
      jdumpKVs_nil))))))))))

/-- The chapter dict after the status conversion performed by
`save_stories`. -/
def Chapter.asdictS (c : Chapter) : PyVal :=
  .pdict [("id", .pstr c.id), ("number", .pint c.number),
    ("title", .pstr c.title), ("summary", .pstr c.summary),
    ("scenes", .plist (c.scenes.map Scene.asdict)),
    ("status", .pstr c.status.value),
    ("target_word_count", .pint c.target_word_count),
    ("actual_word_count", .pint c.actual_word_count),
    ("notes", .pstr c.notes),
    ("created_at", .pstr c.created_at), ("updated_at", .pstr c.updated_at)]

/-- The story dict after the status conversion performed by
`save_stories`. -/
def Story.asdictS (st : Story) : PyVal :=
  .pdict [("id", .pstr st.id), ("title", .pstr st.title),
    ("genre", .pstr st.genre), ("summary", .pstr st.summary),
    ("chapters", .plist (st.chapters.map Chapter.asdictS)),
    ("target_word_count", .pint st.target_word_count),
    ("current_word_count", .pint st.current_word_count),
    ("status", .pstr st.status),
    ("created_at", .pstr st.created_at), ("updated_at", .pstr st.updated_at)]

lemma convert_status_kvs (c0 : ChapterStatus) (kvs : List (String × PyVal))
    (h : ∀ kv ∈ kvs, kv.1 = "status" → kv.2 = PyVal.penumStatus c0) :
    kvs.mapM (fun kv =>
      if kv.1 = "status" then
        match kv.2 with
        | PyVal.penumStatus c => some (("status", PyVal.pstr c.value))
        | _ => none
      else some kv) =
    some (kvs.map (fun kv =>
      if kv.1 = "status" then ("status", PyVal.pstr c0.value) else kv)) := by
  apply mapM_some_of_forall
  intro kv hkv
  by_cases hk : kv.1 = "status"
  · rw [if_pos hk, if_pos hk, h kv hkv hk]
  · rw [if_neg hk, if_neg hk]

lemma convertChapterStatus_asdict (c : Chapter) :
    convertChapterStatus c.asdict = some c.asdictS := by
  unfold Chapter.asdict Chapter.asdictS
  simp only [convertChapterStatus]
  rw [convert_status_kvs c.status _ ?_]
  · simp
  · intro kv hkv hk
    simp only [List.mem_cons, List.not_mem_nil, or_false] at hkv
    rcases hkv with rfl|rfl|rfl|rfl|rfl|rfl|rfl|rfl|rfl|rfl|rfl <;> simp_all

lemma convert_chapters_kvs (chs chs' : List PyVal)
    (kvs : List (String × PyVal))
    (hch : chs.mapM convertChapterStatus = some chs')
    (h : ∀ kv ∈ kvs, kv.1 = "chapters" → kv.2 = PyVal.plist chs) :
    kvs.mapM (fun kv =>
      if kv.1 = "chapters" then
        match kv.2 with
        | PyVal.plist l =>
          (l.mapM convertChapterStatus).map (fun r => ("chapters", PyVal.plist r))
        | _ => none
      else some kv) =
    some (kvs.map (fun kv =>
      if kv.1 = "chapters" then ("chapters", PyVal.plist chs') else kv)) := by
  apply mapM_some_of_forall
  intro kv hkv
  by_cases hk : kv.1 = "chapters"
  · rw [if_pos hk, if_pos hk, h kv hkv hk]
    show (chs.mapM convertChapterStatus).map
      (fun r => ("chapters", PyVal.plist r)) = _
    rw [hch]
    rfl
  · rw [if_neg hk, if_neg hk]

lemma convertStoryDict_asdict (st : Story) :
    convertStoryDict st.asdict = some st.asdictS := by
  have hch : (st.chapters.map Chapter.asdict).mapM convertChapterStatus =
      some (st.chapters.map Chapter.asdictS) :=
    mapM_map_some convertChapterStatus Chapter.asdict Chapter.asdictS
      st.chapters (fun c _ => convertChapterStatus_asdict c)
  unfold Story.asdict Story.asdictS
  simp only [convertStoryDict]
  rw [convert_chapters_kvs (st.chapters.map Chapter.asdict)
    (st.chapters.map Chapter.asdictS) _ hch ?_]
  · simp
  · intro kv hkv hk
    simp only [List.mem_cons, List.not_mem_nil, or_false] at hkv
    rcases hkv with rfl|rfl|rfl|rfl|rfl|rfl|rfl|rfl|rfl|rfl <;> simp_all

lemma jdump_chapter_asdictS (c : Chapter) :
    jdump c.asdictS = some c.asdictS := by
  unfold Chapter.asdictS
  refine jdump_pdict_some _ ?_
  refine jdumpKVs_cons_some _ _ _ (jdump_pstr _) ?_
  refine jdumpKVs_cons_some _ _ _ (jdump_pint _) ?_
  refine jdumpKVs_cons_some _ _ _ (jdump_pstr _) ?_
  refine jdumpKVs_cons_some _ _ _ (jdump_pstr _) ?_
  refine jdumpKVs_cons_some _ _ _ (jdump_plist_some _ ?_) ?_
  · refine jdumpList_of_forall _ ?_
    intro v hv
    rcases List.mem_map.mp hv with ⟨s, _, rfl⟩
    exact jdump_scene_asdict s
  refine jdumpKVs_cons_some _ _ _ (jdump_pstr _) ?_
  refine jdumpKVs_cons_some _ _ _ (jdump_pint _) ?_
  refine jdumpKVs_cons_some _ _ _ (jdump_pint _) ?_
  refine jdumpKVs_cons_some _ _ _ (jdump_pstr _) ?_
  refine jdumpKVs_cons_some _ _ _ (jdump_pstr _) ?_
  exact jdumpKVs_cons_some _ _ _ (jdump_pstr _) jdumpKVs_nil

lemma jdump_story_asdictS (st : Story) :
    jdump st.asdictS = some st.asdictS := by
  unfold Story.asdictS
  refine jdump_pdict_some _ ?_
  refine jdumpKVs_cons_some _ _ _ (jdump_pstr _) ?_
  refine jdumpKVs_cons_some _ _ _ (jdump_pstr _) ?_
  refine jdumpKVs_cons_some _ _ _ (jdump_pstr _) ?_
  refine jdumpKVs_cons_some _ _ _ (jdump_pstr _) ?_
  refine jdumpKVs_cons_some _ _ _ (jdump_plist_some _ ?_) ?_
  · refine jdumpList_of_forall _ ?_
    intro v hv
    rcases List.mem_map.mp hv with ⟨c, _, rfl⟩
    exact jdump_chapter_asdictS c
  refine jdumpKVs_cons_some _ _ _ (jdump_pint _) ?_
  refine jdumpKVs_cons_some _ _ _ (jdump_pint _) ?_
  refine jdumpKVs_cons_some _ _ _ (jdump_pstr _) ?_
  refine jdumpKVs_cons_some _ _ _ (jdump_pstr _) ?_
  exact jdumpKVs_cons_some _ _ _ (jdump_pstr _) jdumpKVs_nil

lemma mapM_asStr_strs (l : List String) :
    (l.map PyVal.pstr).mapM asStr = some l := by
  have h := mapM_map_some asStr PyVal.pstr (fun s => s) l (fun a _ => rfl)
  simpa using h

lemma ofString_value (c : ChapterStatus) :
    ChapterStatus.ofString c.value = some c := by
  cases c <;> rfl

lemma mapM_loop_asStr (l : List String) :
    List.mapM.loop asStr (l.map PyVal.pstr) [] = some l := mapM_asStr_strs l

lemma sceneFromDict_asdict (s : Scene) (h : s.wcInv) :
    sceneFromDict s.asdict = some s := by
  obtain ⟨id, name, description, location, characters, purpose, content,
    word_count, notes, plot_threads⟩ := s
  simp only [Scene.wcInv] at h
  unfold sceneFromDict Scene.asdict
  simp [mkScene, sceneFields, List.lookup, optStr, optNat, asNatVal,
    optStrListOrNone, asStr, asStrList, mapM_asStr_strs, mapM_loop_asStr]
  rcases eq_or_ne content "" with hc | hc <;>
    simp [hc, h, mapM_loop_asStr]

lemma mapM_loop_scenes (scenes : List Scene) (h : ∀ s ∈ scenes, s.wcInv) :
    List.mapM.loop sceneFromDict (scenes.map Scene.asdict) [] = some scenes := by
  have hm := mapM_map_some sceneFromDict Scene.asdict (fun s => s) scenes
    (fun s hs => sceneFromDict_asdict s (h s hs))
  simpa using hm

lemma chapterFromDict_asdictS (c : Chapter) (h : c.wcInv) :
    chapterFromDict c.asdictS = some c := by
  obtain ⟨id, number, title, summary, scenes, status, target, actual, notes,
    created, updated⟩ := c
  obtain ⟨hsum, hscenes⟩ := h
  unfold chapterFromDict Chapter.asdictS
  simp only at hsum
  simp [chapterFields, List.lookup, optStr, optNat, asNatVal, asStr,
    ofString_value, mapM_loop_scenes scenes hscenes, hsum]

lemma mapM_loop_chapters (chs : List Chapter) (h : ∀ c ∈ chs, c.wcInv) :
    List.mapM.loop chapterFromDict (chs.map Chapter.asdictS) [] = some chs := by
  have hm := mapM_map_some chapterFromDict Chapter.asdictS (fun c => c) chs
    (fun c hc => chapterFromDict_asdictS c (h c hc))
  simpa using hm

lemma storyFromDict_asdictS (st : Story) (h : st.wcInv) :
    storyFromDict st.asdictS = some st := by
  obtain ⟨id, title, genre, summary, chapters, target, current, status,
    created, updated⟩ := st
  obtain ⟨hsum, hchs⟩ := h
  unfold storyFromDict Story.asdictS
  simp only at hsum
  simp [storyFields, List.lookup, optStr, optNat, asNatVal, asStr,
    mapM_loop_chapters chapters hchs, hsum]

/-- The document written by `save_stories`. -/
def storiesDoc (stories : List (String × Story)) : PyVal :=
  .pdict (stories.map (fun kv => (kv.1, Story.asdictS kv.2)))

lemma save_stories_eq (stories : List (String × Story)) :
    save_stories stories = some (storiesDoc stories) := by
  unfold save_stories storiesDoc
  have hm : stories.mapM (fun kv =>
      (convertStoryDict (Story.asdict kv.2)).map (fun d => (kv.1, d))) =
      some (stories.map (fun kv => (kv.1, Story.asdictS kv.2))) := by
    apply mapM_some_of_forall
    intro kv _
    rw [convertStoryDict_asdict]
    rfl
  rw [hm]
  show jdump _ = _
  refine jdump_pdict_some _ (jdumpKVs_of_forall _ ?_)
  intro kv hkv
  rcases List.mem_map.mp hkv with ⟨p, _, rfl⟩
  exact jdump_story_asdictS p.2

lemma load_storiesDoc (stories : List (String × Story))
    (hinv : ∀ p ∈ stories, p.2.wcInv) :
    load_stories (storiesDoc stories) = stories := by
  have hm : (stories.map (fun kv => (kv.1, Story.asdictS kv.2))).mapM
      (fun kv => (storyFromDict kv.2).map (fun st => (kv.1, st))) =
      some stories := by
    have h2 := mapM_map_some
      (fun kv : String × PyVal => (storyFromDict kv.2).map (fun st => (kv.1, st)))
      (fun kv : String × Story => (kv.1, Story.asdictS kv.2))
      (fun kv => kv) stories ?_
    · simpa using h2
    · intro p hp
      show (storyFromDict (Story.asdictS p.2)).map (fun st => (p.1, st)) = _
      rw [storyFromDict_asdictS p.2 (hinv p hp)]
      rfl
  simp only [load_stories, storiesDoc]
  rw [hm]
  rfl

lemma load_stories_all_or_nothing (kvs : List (String × PyVal))
    (p : String × PyVal) (hp : p ∈ kvs) (hbad : storyFromDict p.2 = none) :
    load_stories (.pdict kvs) = [] := by
  have hm := mapM_eq_none_of_mem
    (fun kv : String × PyVal => (storyFromDict kv.2).map (fun st => (kv.1, st)))
    kvs p hp (by simp [hbad])
  simp only [load_stories]
  rw [hm]
  rfl

lemma jdump_optIntVal (o : Option Int) :
    jdump (match o with | none => PyVal.pnull | some n => PyVal.pint n) =
      some (match o with | none => PyVal.pnull | some n => PyVal.pint n) := by
  cases o <;> simp [jdump]

lemma jdump_event_asdict (e : TimelineEvent) :
    jdump e.asdict = some e.asdict := by
  unfold TimelineEvent.asdict
  refine jdump_pdict_some _ ?_
  refine jdumpKVs_cons_some _ _ _ (jdump_pstr _) ?_
  refine jdumpKVs_cons_some _ _ _ (jdump_pstr _) ?_
  refine jdumpKVs_cons_some _ _ _ (jdump_pstr _) ?_
  refine jdumpKVs_cons_some _ _ _ (jdump_pint _) ?_
  refine jdumpKVs_cons_some _ _ _ (jdump_optIntVal _) ?_
  refine jdumpKVs_cons_some _ _ _ (jdump_optIntVal _) ?_
  refine jdumpKVs_cons_some _ _ _ (jdump_pint _) ?_
  refine jdumpKVs_cons_some _ _ _ (jdump_plist_some _ (jdump_strList _)) ?_
  refine jdumpKVs_cons_some _ _ _ (jdump_plist_some _ (jdump_strList _)) ?_
  exact jdumpKVs_cons_some _ _ _ (jdump_plist_some _ (jdump_strList _))
    jdumpKVs_nil

lemma eventFromDict_asdict (e : TimelineEvent) :
    eventFromDict e.asdict = some e := by
  obtain ⟨id, name, description, year, month, day, importance, rc, rs, cons⟩ := e
  unfold eventFromDict TimelineEvent.asdict
  cases month <;> cases day <;>
    simp [eventFields, List.lookup, optIntOrNone, optInt, asIntVal, asStr,
      optStrListOrNone, asStrList, mapM_asStr_strs, mapM_loop_asStr]

lemma jdump_plot_asdict (p : PlotThread) : jdump p.asdict = some p.asdict := by
  unfold PlotThread.asdict
  refine jdump_pdict_some _ ?_
  refine jdumpKVs_cons_some _ _ _ (jdump_pstr _) ?_
  refine jdumpKVs_cons_some _ _ _ (jdump_pstr _) ?_
  refine jdumpKVs_cons_some _ _ _ (jdump_pstr _) ?_
  refine jdumpKVs_cons_some _ _ _ (jdump_plist_some _ (jdump_strList _)) ?_
  refine jdumpKVs_cons_some _ _ _ (jdump_plist_some _ (jdump_strList _)) ?_
  refine jdumpKVs_cons_some _ _ _ (jdump_pstr _) ?_
  refine jdumpKVs_cons_some _ _ _ (jdump_pint _) ?_
  exact jdumpKVs_cons_some _ _ _ (jdump_plist_some _ (jdump_strList _))
    jdumpKVs_nil

lemma plotFromDict_asdict (p : PlotThread) : plotFromDict p.asdict = some p := by
  obtain ⟨id, name, description, se, pe, status, importance, rc⟩ := p
  unfold plotFromDict PlotThread.asdict
  simp [plotFields, List.lookup, optStr, optInt, asIntVal, asStr,
    optStrListOrNone, asStrList, mapM_asStr_strs, mapM_loop_asStr]

/-- The document written by the timeline branch of `save_all`. -/
def timelineDoc (tl : List (String × TimelineEvent)) : PyVal :=
  .pdict (tl.map (fun kv => (kv.1, kv.2.asdict)))

lemma save_timeline_eq (tl : List (String × TimelineEvent)) :
    save_timeline tl = some (timelineDoc tl) := by
  unfold save_timeline timelineDoc
  refine jdump_pdict_some _ (jdumpKVs_of_forall _ ?_)
  intro kv hkv
  rcases List.mem_map.mp hkv with ⟨p, _, rfl⟩
  exact jdump_event_asdict p.2

lemma load_timelineDoc (tl : List (String × TimelineEvent)) :
    load_timeline (timelineDoc tl) = tl := by
  have hm : (tl.map (fun kv => (kv.1, kv.2.asdict))).mapM
      (fun kv => (eventFromDict kv.2).map (fun e => (kv.1, e))) = some tl := by
    have h2 := mapM_map_some
      (fun kv : String × PyVal => (eventFromDict kv.2).map (fun e => (kv.1, e)))
      (fun kv : String × TimelineEvent => (kv.1, kv.2.asdict))
      (fun kv => kv) tl ?_
    · simpa using h2
    · intro p _
      show (eventFromDict p.2.asdict).map (fun e => (p.1, e)) = _
      rw [eventFromDict_asdict]
      rfl
  simp only [load_timeline, timelineDoc]
  rw [hm]
  rfl

/-- The document written by the plot-thread branch of `save_all`. -/
def plotsDoc (plots : List (String × PlotThread)) : PyVal :=
  .pdict (plots.map (fun kv => (kv.1, kv.2.asdict)))

lemma save_plots_eq (plots : List (String × PlotThread)) :
    save_plots plots = some (plotsDoc plots) := by
  unfold save_plots plotsDoc
  refine jdump_pdict_some _ (jdumpKVs_of_forall _ ?_)
  intro kv hkv
  rcases List.mem_map.mp hkv with ⟨p, _, rfl⟩
  exact jdump_plot_asdict p.2

lemma load_plotsDoc (plots : List (String × PlotThread)) :
    load_plots (plotsDoc plots) = plots := by
  have hm : (plots.map (fun kv => (kv.1, kv.2.asdict))).mapM
      (fun kv => (plotFromDict kv.2).map (fun p => (kv.1, p))) = some plots := by
    have h2 := mapM_map_some
      (fun kv : String × PyVal => (plotFromDict kv.2).map (fun p => (kv.1, p)))
      (fun kv : String × PlotThread => (kv.1, kv.2.asdict))
      (fun kv => kv) plots ?_
    · simpa using h2
    · intro p _
      show (plotFromDict p.2.asdict).map (fun q => (p.1, q)) = _
      rw [plotFromDict_asdict]
      rfl
  simp only [load_plots, plotsDoc]
  rw [hm]
  rfl

lemma jdump_setting_asdict_none (s : WorldSetting) : jdump s.asdict = none := by
  unfold WorldSetting.asdict
  have hkvs : jdumpKVs [("id", PyVal.pstr s.id), ("name", PyVal.pstr s.name),
      ("type", PyVal.penumType s.type),
      ("description", PyVal.pstr s.description),
      ("details", PyVal.pdict (s.details.map (fun kv => (kv.1, PyVal.pstr kv.2)))),
      ("related_settings", PyVal.plist (s.related_settings.map .pstr)),
      ("created_at", PyVal.pstr s.created_at),
      ("updated_at", PyVal.pstr s.updated_at)] = none :=
    jdumpKVs_none_of_mem _ ("type", PyVal.penumType s.type) (by simp)
      (by simp [jdump])
  simp [jdump, hkvs]

/-- Model of `save_all` cannot serialize a non-empty settings store: `json.dump`
raises on the unconverted `SettingType` enum. -/
lemma save_settings_fails (settings : List (String × WorldSetting))
    (h : settings ≠ []) : save_settings settings = none := by
  unfold save_settings
  obtain ⟨p, rest, rfl⟩ : ∃ p r, settings = p :: r := by
    cases settings with
    | nil => exact absurd rfl h
    | cons p r => exact ⟨p, r, rfl⟩
  have hkvs : jdumpKVs ((p.1, p.2.asdict) ::
      rest.map (fun kv => (kv.1, kv.2.asdict))) = none :=
    jdumpKVs_none_of_mem _ (p.1, p.2.asdict) (by simp)
      (jdump_setting_asdict_none p.2)
  simp [jdump, hkvs]

lemma save_memory_roundtrip (chars : PyVal) (ts : String)
    (hc : jdump chars = some chars) :
    save_memory chars ts =
      some (.pdict [("characters", chars), ("last_updated", .pstr ts)]) ∧
    load_memory (.pdict [("characters", chars), ("last_updated", .pstr ts)]) =
      chars := by
  constructor
  · unfold save_memory
    exact jdump_pdict_some _ (jdumpKVs_cons_some _ _ _ hc
      (jdumpKVs_cons_some _ _ _ (jdump_pstr _) jdumpKVs_nil))
  · simp [load_memory, List.lookup]

/-- C2 (amended): stories, timeline events, plot threads and the raw
character-memory dict each serialize to their JSON document and load back
identically (for stories, under the derived word-count invariant that all
reachable states satisfy); chapter-status enums are written as their
string value and parsed back on load, but a load failure anywhere — e.g.
an unrecognized status string — aborts the ENTIRE stories load, returning
the empty collection rather than failing only that entity; and world
settings do not round-trip at all: `save_all` leaves the `SettingType`
enum in the dict, so serializing any non-empty settings store raises,
while `_load_settings` never parses the stored type string back into the
enum (its result type `RawWorldSetting` keeps the raw string). -/
theorem persistence_roundtrip_amended
    (stories : List (String × Story)) (hinv : ∀ p ∈ stories, p.2.wcInv)
    (tl : List (String × TimelineEvent)) (plots : List (String × PlotThread))
    (settings : List (String × WorldSetting)) (hs : settings ≠ [])
    (chars : PyVal) (ts : String) (hc : jdump chars = some chars)
    (badKvs : List (String × PyVal)) (bad : String × PyVal)
    (hbadMem : bad ∈ badKvs) (hbad : storyFromDict bad.2 = none) :
    (save_stories stories = some (storiesDoc stories) ∧
     load_stories (storiesDoc stories) = stories) ∧
    (save_timeline tl = some (timelineDoc tl) ∧
     load_timeline (timelineDoc tl) = tl) ∧
    (save_plots plots = some (plotsDoc plots) ∧
     load_plots (plotsDoc plots) = plots) ∧
    load_stories (.pdict badKvs) = [] ∧
    save_settings settings = none ∧
    (save_memory chars ts =
       some (.pdict [("characters", chars), ("last_updated", .pstr ts)]) ∧
     load_memory (.pdict [("characters", chars), ("last_updated", .pstr ts)]) =
       chars) :=
  ⟨⟨save_stories_eq stories, load_storiesDoc stories hinv⟩,
   ⟨save_timeline_eq tl, load_timelineDoc tl⟩,
   ⟨save_plots_eq plots, load_plotsDoc plots⟩,
   load_stories_all_or_nothing badKvs bad hbadMem hbad,
   save_settings_fails settings hs,
   save_memory_roundtrip chars ts hc⟩

/-- A story with one chapter and a scene whose fields satisfy the derived
word-count invariant; used for concrete round trips. -/
def cexStory : Story :=
  mkStory "story_1_1" "題" "fantasy" "要約"
    [mkChapter "story_1_1_chapter_1" 1 "一" "sm"
      [mkScene "sc1" "n" "d" "l" ["x"] "p" "本文" 0 "" []] .drafting 3000 "" "T"]
    50000 "planning" "T"

/-- The JSON dict `save_stories` writes for `cexStory`. -/
def cexGoodDict : PyVal := Story.asdictS cexStory

/-- A story dict whose chapter carries the unrecognized status string
`"bogus"`. -/
def cexBadDict : PyVal :=
  .pdict [("id", .pstr "story_2_2"), ("title", .pstr "b"),
    ("genre", .pstr "g"), ("summary", .pstr "s"),
    ("chapters", .plist [.pdict [("id", .pstr "story_2_2_chapter_1"),
      ("number", .pint 1), ("title", .pstr "t"), ("summary", .pstr "s"),
      ("scenes", .plist []), ("status", .pstr "bogus"),
      ("target_word_count", .pint 3000), ("actual_word_count", .pint 0),
      ("notes", .pstr ""), ("created_at", .pstr "T"),
      ("updated_at", .pstr "T")]]),
    ("target_word_count", .pint 50000), ("current_word_count", .pint 0),
    ("status", .pstr "planning"), ("created_at", .pstr "T"),
    ("updated_at", .pstr "T")]

/-- A hand-written world-setting dict whose `type` string matches no
`SettingType` member. -/
def cexBogusSettingDict : PyVal :=
  .pdict [("id", .pstr "setting_9"), ("name", .pstr "名"),
    ("type", .pstr "not-a-real-type"), ("description", .pstr "d"),
    ("details", .pdict []), ("related_settings", .plist []),
    ("created_at", .pstr "T"), ("updated_at", .pstr "T")]

/-- C2 counterexample: the claim "if a stored enum string is unrecognized,
the load fails for that entity only" is false — a valid story that loads
fine on its own is also dropped when a sibling entity has status
`"bogus"` (the whole load returns the empty store); and the claim that
enum-valued fields are "written as their string value ... parsed back into
the enum on load" is false for world settings — serializing a store with
one setting fails outright, while loading an unrecognized type string
SUCCEEDS, keeping the raw string instead of failing. -/
theorem persistence_claim_counterexample :
    load_stories (.pdict [("story_1_1", cexGoodDict)]) =
      [("story_1_1", cexStory)] ∧
    storyFromDict cexBadDict = none ∧
    load_stories (.pdict [("story_1_1", cexGoodDict),
      ("story_2_2", cexBadDict)]) = [] ∧
    save_settings [("setting_1", c3Setting)] = none ∧
    load_settings (.pdict [("s", cexBogusSettingDict)]) =
      [("s", { id := "setting_9", name := "名", type := "not-a-real-type",
               description := "d", details := [], related_settings := [],
               created_at := "T", updated_at := "T" })] := by
  refine ⟨by decide, by decide, by decide,
    save_settings_fails _ (by decide), by decide⟩

/-- A small enum-free character store for the C2 witness. -/
def cexChars : PyVal :=
  .pdict [("アリス", .pdict [("description", .pstr "主人公")])]

/-- C2 witness: the amended round-trip statement applied to concrete
stores — one invariant-satisfying story, one timeline event, one plot
thread, one world setting, a small character dict, and the two-entry
stories file with one bad status. -/
theorem persistence_roundtrip_amended_witness :
    ((∀ p ∈ [("story_1_1", cexStory)], Story.wcInv p.2) ∧
     ([("setting_1", c3Setting)] : List (String × WorldSetting)) ≠ [] ∧
     jdump cexChars = some cexChars ∧
     ("story_2_2", cexBadDict) ∈
       [("story_1_1", cexGoodDict), ("story_2_2", cexBadDict)] ∧
     storyFromDict cexBadDict = none) ∧
    ((save_stories [("story_1_1", cexStory)] =
        some (storiesDoc [("story_1_1", cexStory)]) ∧
      load_stories (storiesDoc [("story_1_1", cexStory)]) =
        [("story_1_1", cexStory)]) ∧
     (save_timeline [("event_1", c9EvA)] =
        some (timelineDoc [("event_1", c9EvA)]) ∧
      load_timeline (timelineDoc [("event_1", c9EvA)]) =
        [("event_1", c9EvA)]) ∧
     (save_plots [("plot_1", c3Plot)] = some (plotsDoc [("plot_1", c3Plot)]) ∧
      load_plots (plotsDoc [("plot_1", c3Plot)]) = [("plot_1", c3Plot)]) ∧
     load_stories (.pdict [("story_1_1", cexGoodDict),
       ("story_2_2", cexBadDict)]) = [] ∧
     save_settings [("setting_1", c3Setting)] = none ∧
     (save_memory cexChars "TS" =
        some (.pdict [("characters", cexChars), ("last_updated", .pstr "TS")]) ∧
      load_memory (.pdict [("characters", cexChars),
        ("last_updated", .pstr "TS")]) = cexChars)) :=
  ⟨⟨by decide, by decide,
    jdump_pdict_some _ (jdumpKVs_cons_some _ _ _
      (jdump_pdict_some _ (jdumpKVs_cons_some _ _ _ (jdump_pstr _)
        jdumpKVs_nil)) jdumpKVs_nil),
    List.mem_cons_of_mem _ (List.mem_cons_self _ _), by decide⟩,
   persistence_roundtrip_amended [("story_1_1", cexStory)] (by decide)
     [("event_1", c9EvA)] [("plot_1", c3Plot)] [("setting_1", c3Setting)]
     (by decide) cexChars "TS"
     (jdump_pdict_some _ (jdumpKVs_cons_some _ _ _
       (jdump_pdict_some _ (jdumpKVs_cons_some _ _ _ (jdump_pstr _)
         jdumpKVs_nil)) jdumpKVs_nil))
     [("story_1_1", cexGoodDict), ("story_2_2", cexBadDict)]
     ("story_2_2", cexBadDict)
     (List.mem_cons_of_mem _ (List.mem_cons_self _ _)) (by decide)⟩

end PlotWeaver
